import Mathlib

/-!
Verification of the iterative retrieval-and-arbitration core of the
simplex-kg-rag-system repository.

The development shallowly embeds the Python modules
`src/core/orchestrator.py`, `src/core/graph_retriever.py`,
`src/core/enhanced_kg_linker.py` and `src/core/llm_cache.py`.

Modelling conventions, used throughout:
* Python values flowing through the pipeline (JSON payloads, Neo4j rows,
  evidence items) are modelled by the inductive type `PyVal`.
* Python floats are modelled by exact rationals `ℚ`; the float constants in
  the source (0.9, 0.1, 0.8, ...) are represented exactly and no claim in
  this development depends on binary rounding.
* External effects (the Neo4j driver, the OpenAI completion service, the
  cache directory on disk) are modelled by explicit oracle records and
  explicit state threading.  Exceptions raised by Python code are modelled
  with `Except PyErr`; a Python `try/except` corresponds to matching on the
  `Except` value exactly where the source has the handler.
* String helpers (`strContains`, `strUpper`, ...) are defined over the
  character list of a `String` so that all definitions evaluate by `rfl`;
  case mapping is ASCII, which agrees with Python on every string the
  claims touch.
-/

/-- Error values standing for Python exceptions.  The source code never
inspects an exception beyond logging it, so the model only distinguishes a
few coarse kinds. -/
inductive PyErr where
  | connectivity
  | typeErr
  | nameErr
  deriving DecidableEq, Repr

/-- Single-quote character, used by `pyRepr` to mirror Python `repr` of
strings. -/
def pyQuote : String := String.mk [Char.ofNat 39]

/-- Join a list of strings with a separator, mirroring Python
`sep.join(parts)`. -/
def strJoin (sep : String) : List String → String
  | [] => ""
  | [x] => x
  | x :: y :: tl => x ++ sep ++ strJoin sep (y :: tl)

/-- Substring test on character lists: `needle` occurs contiguously in
`hay`. -/
def charsHasSub : List Char → List Char → Bool
  | hay, needle =>
    match hay with
    | [] => needle.isEmpty
    | _ :: tl => needle.isPrefixOf hay || charsHasSub tl needle

/-- Substring containment, mirroring Python `needle in hay` on `str`. -/
def strContains (hay needle : String) : Bool :=
  charsHasSub hay.data needle.data

/-- ASCII upper-casing, mirroring Python `str.upper()` on the ASCII strings
the retrieval layer handles. -/
def strUpper (s : String) : String := String.mk (s.data.map Char.toUpper)

/-- ASCII lower-casing, mirroring Python `str.lower()` on the ASCII strings
the filter and linker handle. -/
def strLower (s : String) : String := String.mk (s.data.map Char.toLower)

/-- Code-point comparison of character lists, mirroring how Python compares
strings (lexicographically by code point). -/
def charsLe : List Char → List Char → Bool
  | [], _ => true
  | _ :: _, [] => false
  | c :: cs, d :: ds =>
    if c.val < d.val then true
    else if d.val < c.val then false
    else charsLe cs ds

/-- String order used by Python `sorted` on `dict.items()` keys. -/
def strLe (a b : String) : Bool := charsLe a.data b.data

/-- Python runtime values, as they appear in the pipeline payloads: JSON
scalars, lists and string-keyed dicts. -/
inductive PyVal where
  | str (s : String)
  | int (n : Int)
  | float (q : ℚ)
  | bool (b : Bool)
  | none
  | list (xs : List PyVal)
  | dict (kvs : List (String × PyVal))

/-- Association-list lookup with Python `dict` semantics: a later binding
for the same key shadows an earlier one (dict construction keeps the last
value written). -/
def pyLookup : List (String × PyVal) → String → Option PyVal
  | [], _ => Option.none
  | (k2, v) :: tl, k =>
    match pyLookup tl k with
    | Option.some v2 => Option.some v2
    | Option.none => if k2 = k then Option.some v else Option.none

/-- Python `k in d` on a dict. -/
def hasKey (kvs : List (String × PyVal)) (k : String) : Bool :=
  (pyLookup kvs k).isSome

/-- Python `d.get(k, default)`. -/
def pyGetD (kvs : List (String × PyVal)) (k : String) (d : PyVal) : PyVal :=
  (pyLookup kvs k).getD d

/-- Python `d[k] = v`: replace in place if the key exists, else append. -/
def dictSet : List (String × PyVal) → String → PyVal → List (String × PyVal)
  | [], k, v => [(k, v)]
  | (k2, v2) :: tl, k, v =>
    if k2 = k then (k2, v) :: tl else (k2, v2) :: dictSet tl k v

/-- Decimal rendering of a Python float.  Only the integral floats produced
by the claims below are ever rendered; the general case is approximated by
numerator/denominator and is not relied on by any theorem. -/
def floatRepr (q : ℚ) : String :=
  if q.den = 1 then toString q.num ++ ".0"
  else toString q.num ++ "/" ++ toString q.den

mutual
/-- Python `repr` of a value, as used inside `str` of containers. -/
def pyRepr : PyVal → String
  | .str s => pyQuote ++ s ++ pyQuote
  | .int n => toString n
  | .float q => floatRepr q
  | .bool b => if b then "True" else "False"
  | .none => "None"
  | .list xs => "[" ++ strJoin ", " (pyReprList xs) ++ "]"
  | .dict kvs => "\x7b" ++ strJoin ", " (pyReprKvs kvs) ++ "\x7d"
/-- Helper of `pyRepr` for list elements. -/
def pyReprList : List PyVal → List String
  | [] => []
  | x :: xs => pyRepr x :: pyReprList xs
/-- Helper of `pyRepr` for dict entries (`'key': value`). -/
def pyReprKvs : List (String × PyVal) → List String
  | [] => []
  | (k, v) :: kvs => (pyQuote ++ k ++ pyQuote ++ ": " ++ pyRepr v) :: pyReprKvs kvs
end

/-- Python `str(v)`: the string itself for a `str`, `repr`-style rendering
for containers and scalars. -/
def pyStr : PyVal → String
  | .str s => s
  | v => pyRepr v

/-- Python truthiness, as used in `if value:` tests. -/
def pyTruthy : PyVal → Bool
  | .str s => !s.isEmpty
  | .int n => n != 0
  | .float q => q != 0
  | .bool b => b
  | .none => false
  | .list xs => !xs.isEmpty
  | .dict kvs => !kvs.isEmpty

/-- Python `value == someString` where the right operand is a `str`: true
exactly when the left operand is the same string.  (Numbers, `None`,
containers never equal a string in Python.) -/
def pyEqStr (a : PyVal) (s : String) : Bool :=
  match a with
  | .str t => t = s
  | _ => false

/-- Python `a or b` on values: the first operand if truthy, else the
second. -/
def pyOr (a b : PyVal) : PyVal := if pyTruthy a then a else b

/-- Insertion step for the key-sorting used on `dict.items()`. -/
def insertByKey (p : String × PyVal) : List (String × PyVal) → List (String × PyVal)
  | [] => [p]
  | q :: qs => if strLe p.1 q.1 then p :: q :: qs else q :: insertByKey p qs

/-- Python `sorted(d.items())` for a string-keyed dict: sort the pairs by
key (keys of a dict are distinct, so tuple comparison never reaches the
values). -/
def sortByKey : List (String × PyVal) → List (String × PyVal)
  | [] => []
  | p :: ps => insertByKey p (sortByKey ps)

namespace Orchestrator

/-- Fields scanned by `_is_valuable_fact` in `src/core/orchestrator.py`. -/
def valuable_fields : List String :=
  ["description", "type", "capacity", "compatibility", "license"]

/-- Embedding of `BYOKGRAGPipeline._is_valuable_fact`
(`src/core/orchestrator.py`, lines 259-274): an item is valuable when it is
a dict carrying a `sku` or `name` key, or both `source` and `target` keys,
or whose lower-cased `str()` rendering mentions one of the
`valuable_fields`. -/
def is_valuable_fact (item : PyVal) : Bool :=
  match item with
  | .dict kvs =>
    if hasKey kvs "sku" || hasKey kvs "name" then true
    else if hasKey kvs "source" && hasKey kvs "target" then true
    else valuable_fields.any (fun f => strContains (strLower (pyStr (.dict kvs))) f)
  | _ => false

/-- Embedding of the signature computed at `src/core/orchestrator.py` line
250: `str(sorted(item.items()))` for a dict (rendered as a Python list of
2-tuples), `str(item)` otherwise. -/
def fact_signature (item : PyVal) : String :=
  match item with
  | .dict kvs =>
    "[" ++ strJoin ", "
      ((sortByKey kvs).map
        (fun kv => "(" ++ pyQuote ++ kv.1 ++ pyQuote ++ ", " ++ pyRepr kv.2 ++ ")"))
      ++ "]"
  | v => pyStr v

/-- Membership in the session-wide seen-fact set (a Python `set` of
strings, modelled as the list of strings added so far). -/
def seenContains (seen : List String) (s : String) : Bool :=
  seen.any (fun t => t = s)

/-- Embedding of `BYOKGRAGPipeline._filter_valuable_data`
(`src/core/orchestrator.py`, lines 244-257): keep the items whose signature
is not in the seen set and which are valuable.  Note that the function
reads the seen set but does not extend it; the caller extends it with
`str(item)` (see `accumulate_results`). -/
def filter_valuable_data (data : List PyVal) (seen_facts : List String) : List PyVal :=
  data.filter (fun item =>
    !seenContains seen_facts (fact_signature item) && is_valuable_fact item)

/-- Base confidence per retrieval method
(`src/core/orchestrator.py`, lines 278-283). -/
def base_confidence (method : String) : ℚ :=
  if method = "entity_linking" then 9/10
  else if method = "cypher_retrieval" then 8/10
  else if method = "triplet_retrieval" then 7/10
  else if method = "path_retrieval" then 6/10
  else 1/2

/-- Python `item.get(k, '')` for the items reaching
`_calculate_confidence`; those items are dicts (they passed
`_is_valuable_fact`). -/
def pyGetItem (item : PyVal) (k : String) : PyVal :=
  match item with
  | .dict kvs => pyGetD kvs k (.str "")
  | _ => .str ""

/-- Embedding of `BYOKGRAGPipeline._calculate_confidence`
(`src/core/orchestrator.py`, lines 276-298): the method base confidence,
boosted by 0.1 when some item mentions `sku` and by 0.1 when some item has
a long `description`, capped at 1. -/
def calculate_confidence (method : String) (data : List PyVal) : ℚ :=
  let c0 := base_confidence method
  let c1 := if data.any (fun it => strContains (pyStr it) "sku") then c0 + 1/10 else c0
  let c2 :=
    if data.any (fun it =>
        strContains (pyStr it) "description" &&
        (pyStr (pyGetItem it "description")).length > 50)
    then c1 + 1/10 else c1
  min c2 1

/-- One accumulated-context entry, as appended at
`src/core/orchestrator.py` lines 90-95. -/
structure CtxEntry where
  iteration : Nat
  method : String
  data : List PyVal
  confidence : ℚ

/-- Per-round metadata recorded at `src/core/orchestrator.py`
lines 104-111. -/
structure IterMeta where
  iteration : Nat
  kg_linker_entities : Nat
  kg_linker_paths : Nat
  retrieval_methods : Nat
  new_facts_found : Nat
  total_context_items : Nat

/-- One method-tagged retrieval result (`RetrievalResult` in
`src/core/graph_retriever.py`; the unused `metadata` dict is omitted). -/
structure RetrievalResult where
  method : String
  data : List PyVal

/-- What one loop iteration observes from the KG-linker / retriever
composite: the linker entity and path counts used for metadata, and the
retrieval results.  The composite goes through two external services (the
completion service and the graph store), so the loop is parametrised by an
oracle `Nat → RoundOutput` giving the observation of each round. -/
structure RoundOutput where
  entities_count : Nat
  paths_count : Nat
  results : List RetrievalResult

/-- Mutable state of `process_query`
(`src/core/orchestrator.py`, lines 64-67): the accumulated context, the
iteration metadata and the session-wide seen-fact set. -/
structure LoopState where
  accumulated_context : List CtxEntry
  iteration_metadata : List IterMeta
  all_retrieved_facts : List String

/-- Embedding of the inner loop over `retrieval_results`
(`src/core/orchestrator.py`, lines 86-99): filter each result against the
seen set, append a context entry when anything new and valuable remains,
and record `str(item)` of each kept item into the seen set. -/
def accumulate_results (iterIdx : Nat) :
    List RetrievalResult → List String → List CtxEntry × List String
  | [], seen => ([], seen)
  | r :: rs, seen =>
    let vd := filter_valuable_data r.data seen
    if vd.isEmpty then accumulate_results iterIdx rs seen
    else
      let rest := accumulate_results iterIdx rs (seen ++ vd.map pyStr)
      (⟨iterIdx + 1, r.method, vd, calculate_confidence r.method vd⟩ :: rest.1, rest.2)

/-- One iteration of the refinement loop
(`src/core/orchestrator.py`, lines 73-111): accumulate the new context,
extend the accumulated context and append the round metadata.  The second
component is `len(new_context)`, which drives the early-stopping test. -/
def round_step (ro : RoundOutput) (iterIdx : Nat) (st : LoopState) : LoopState × Nat :=
  let p := accumulate_results iterIdx ro.results st.all_retrieved_facts
  (⟨st.accumulated_context ++ p.1,
    st.iteration_metadata ++
      [⟨iterIdx + 1, ro.entities_count, ro.paths_count, ro.results.length,
        p.1.length, (st.accumulated_context ++ p.1).length⟩],
    p.2⟩,
   p.1.length)

/-- Embedding of the `for iteration in range(self.max_iterations)` loop of
`process_query` (`src/core/orchestrator.py`, lines 73-116), including the
early-stopping break `if not new_context and iteration > 0`. -/
def run_loop (retrieve : Nat → RoundOutput) : Nat → Nat → LoopState → LoopState
  | 0, _, st => st
  | rem + 1, idx, st =>
    if (round_step (retrieve idx) idx st).2 = 0 ∧ 0 < idx then
      (round_step (retrieve idx) idx st).1
    else run_loop retrieve rem (idx + 1) (round_step (retrieve idx) idx st).1

/-- The loop of `BYOKGRAGPipeline.process_query` run from the initial empty
state (`src/core/orchestrator.py`, lines 64-116). -/
def process_query_loop (retrieve : Nat → RoundOutput) (max_iterations : Nat) : LoopState :=
  run_loop retrieve max_iterations 0 ⟨[], [], []⟩

/-- The `iterations_performed` field of the returned `BYOKGRAGResult`
(`src/core/orchestrator.py`, line 125): `len(iteration_metadata)`. -/
def iterations_performed (retrieve : Nat → RoundOutput) (max_iterations : Nat) : Nat :=
  (process_query_loop retrieve max_iterations).iteration_metadata.length

end Orchestrator

/-- Left brace character (code point 123). -/
def lbraceChar : Char := Char.ofNat 123

/-- Right brace character (code point 125). -/
def rbraceChar : Char := Char.ofNat 125

/-- JSON / Python whitespace test. -/
def jsonWs (c : Char) : Bool :=
  c = ' ' || c = '\t' || c = '\n' || c = '\r'

/-- Drop leading whitespace. -/
def skipWs (cs : List Char) : List Char := cs.dropWhile jsonWs

/-- Python `str.strip()`: drop whitespace at both ends. -/
def pyStrip (s : String) : String :=
  String.mk (((s.data.dropWhile jsonWs).reverse.dropWhile jsonWs).reverse)

/-- Split on a non-empty separator given as head and tail characters,
mirroring Python `str.split(sep)` (non-overlapping, left to right). -/
def splitChars (s0 : Char) (srest : List Char) : List Char → List (List Char)
  | [] => [[]]
  | c :: tl =>
    if (s0 :: srest).isPrefixOf (c :: tl) then
      [] :: splitChars s0 srest (tl.drop srest.length)
    else
      match splitChars s0 srest tl with
      | [] => [[c]]
      | h :: t => (c :: h) :: t
termination_by cs => cs.length
decreasing_by
  · simp [List.length_drop]; omega
  · simp

/-- Python `s.split(sep)` for a non-empty separator. -/
def splitOnStr (s sep : String) : List String :=
  match sep.data with
  | [] => [s]
  | s0 :: srest => (splitChars s0 srest s.data).map String.mk

/-- Digit accumulator for the JSON number parser. -/
def digitsToNat (ds : List Char) : Nat :=
  ds.foldl (fun n c => n * 10 + (c.toNat - 48)) 0

/-- Parse the body of a JSON string after the opening quote, handling the
single-character escapes; `\u` escapes are not modelled (they make the
parse fail, which the callers treat like any malformed document). -/
def parseStringBody : List Char → List Char → Option (String × List Char)
  | [], _ => Option.none
  | c :: tl, acc =>
    if c = '"' then Option.some (String.mk acc.reverse, tl)
    else if c = '\\' then
      match tl with
      | [] => Option.none
      | e :: tl2 =>
        let r : Option Char :=
          if e = '"' then Option.some '"'
          else if e = '\\' then Option.some '\\'
          else if e = '/' then Option.some '/'
          else if e = 'n' then Option.some '\n'
          else if e = 't' then Option.some '\t'
          else if e = 'r' then Option.some '\r'
          else if e = 'b' then Option.some (Char.ofNat 8)
          else if e = 'f' then Option.some (Char.ofNat 12)
          else Option.none
        match r with
        | Option.some ch => parseStringBody tl2 (ch :: acc)
        | Option.none => Option.none
    else parseStringBody tl (c :: acc)

/-- Parse a JSON integer (decimal fractions and exponents are not modelled;
they make the parse fail like any malformed document). -/
def parseIntBody (cs : List Char) : Option (PyVal × List Char) :=
  let neg := cs.head? = Option.some '-'
  let cs1 := if neg then cs.drop 1 else cs
  let ds := cs1.takeWhile Char.isDigit
  let rest := cs1.dropWhile Char.isDigit
  if ds.isEmpty then Option.none
  else
    match rest with
    | '.' :: _ => Option.none
    | 'e' :: _ => Option.none
    | 'E' :: _ => Option.none
    | _ =>
      let n : Int := Int.ofNat (digitsToNat ds)
      Option.some (.int (if neg then -n else n), rest)

mutual
/-- Fueled JSON value parser modelling `json.loads`; the fuel is an upper
bound on the recursion depth and is in practice the input length plus
two. -/
def parseVal : Nat → List Char → Option (PyVal × List Char)
  | 0, _ => Option.none
  | fuel + 1, cs =>
    match skipWs cs with
    | [] => Option.none
    | c :: tl =>
      if c = '"' then
        match parseStringBody tl [] with
        | Option.some (s, rest) => Option.some (.str s, rest)
        | Option.none => Option.none
      else if c = 't' then
        if ['r', 'u', 'e'].isPrefixOf tl then Option.some (.bool true, tl.drop 3)
        else Option.none
      else if c = 'f' then
        if ['a', 'l', 's', 'e'].isPrefixOf tl then Option.some (.bool false, tl.drop 4)
        else Option.none
      else if c = 'n' then
        if ['u', 'l', 'l'].isPrefixOf tl then Option.some (.none, tl.drop 3)
        else Option.none
      else if c = lbraceChar then
        match skipWs tl with
        | d :: tl2 =>
          if d = rbraceChar then Option.some (.dict [], tl2)
          else parseObjItems fuel (d :: tl2) []
        | [] => Option.none
      else if c = '[' then
        match skipWs tl with
        | d :: tl2 =>
          if d = ']' then Option.some (.list [], tl2)
          else parseArrItems fuel (d :: tl2) []
        | [] => Option.none
      else if c = '-' || c.isDigit then parseIntBody (c :: tl)
      else Option.none

/-- Parse the comma-separated items of a non-empty JSON array. -/
def parseArrItems : Nat → List Char → List PyVal → Option (PyVal × List Char)
  | 0, _, _ => Option.none
  | fuel + 1, cs, acc =>
    match parseVal fuel cs with
    | Option.none => Option.none
    | Option.some (v, rest) =>
      match skipWs rest with
      | ',' :: tl => parseArrItems fuel tl (v :: acc)
      | ']' :: tl => Option.some (.list (v :: acc).reverse, tl)
      | _ => Option.none

/-- Parse the comma-separated entries of a non-empty JSON object. -/
def parseObjItems : Nat → List Char → List (String × PyVal) → Option (PyVal × List Char)
  | 0, _, _ => Option.none
  | fuel + 1, cs, acc =>
    match skipWs cs with
    | c :: tl =>
      if c = '"' then
        match parseStringBody tl [] with
        | Option.some (k, rest) =>
          match skipWs rest with
          | ':' :: tl2 =>
            match parseVal fuel tl2 with
            | Option.some (v, rest2) =>
              match skipWs rest2 with
              | ',' :: tl3 => parseObjItems fuel tl3 ((k, v) :: acc)
              | d :: tl3 =>
                if d = rbraceChar then Option.some (.dict ((k, v) :: acc).reverse, tl3)
                else Option.none
              | [] => Option.none
            | Option.none => Option.none
          | _ => Option.none
        | Option.none => Option.none
      else Option.none
    | [] => Option.none
end

/-- Model of `json.loads`: parse one document and require only trailing
whitespace after it. -/
def jsonParse (s : String) : Option PyVal :=
  match parseVal (s.data.length + 2) s.data with
  | Option.some (v, rest) => if (skipWs rest).isEmpty then Option.some v else Option.none
  | Option.none => Option.none

/-- Model of `re.search(r'\x7b.*\x7d', text, re.DOTALL)`: the greedy match
runs from the first left brace that has a right brace after it (which is
then the overall first left brace) to the last right brace of the text. -/
def braceSpan (s : String) : Option String :=
  let cs := s.data
  match List.findIdx? (fun c => c = lbraceChar) cs, List.findIdx? (fun c => c = rbraceChar) cs.reverse with
  | Option.some i0, Option.some jr =>
    let jmax := cs.length - 1 - jr
    if i0 < jmax then Option.some (String.mk ((cs.drop i0).take (jmax - i0 + 1)))
    else Option.none
  | _, _ => Option.none

namespace Orchestrator

/-- Embedding of `BYOKGRAGPipeline._extract_json_from_response`
(`src/core/orchestrator.py`, lines 612-629): try the fenced `json` block
first, then a greedy brace-matched region, and fall back to the empty dict
when nothing parses (the `except` path returns `\x7b\x7d`). -/
def extract_json_from_response (response_text : String) : PyVal :=
  if strContains response_text "```json" then
    match splitOnStr response_text "```json" with
    | _ :: after :: _ =>
      let json_text := pyStrip ((splitOnStr after "```").headD "")
      match jsonParse json_text with
      | Option.some v => v
      | Option.none => .dict []
    | _ => .dict []
  else
    match braceSpan response_text with
    | Option.some sub =>
      match jsonParse sub with
      | Option.some v => v
      | Option.none => .dict []
    | Option.none => .dict []

/-- Outcome dict built by `BYOKGRAGPipeline._compare_answers`
(`src/core/orchestrator.py`, lines 454-469). -/
structure CompareOutcome where
  baseline_score : PyVal
  kg_score : PyVal
  kg_better : PyVal
  reasoning : PyVal

/-- Embedding of `BYOKGRAGPipeline._compare_answers`
(`src/core/orchestrator.py`, lines 408-469).  The evaluator call is an
external effect, so the function takes the call outcome: `.error` when the
completion call (or anything else inside the `try`) raised, `.ok text` for
the returned narrative.  On `.ok`, the parsed verdict supplies the scores
with the source defaults; a non-dict parse makes `.get` raise inside the
`try`, which lands in the same `except` branch as a failed call. -/
def compare_answers (resp : Except PyErr String) : CompareOutcome :=
  match resp with
  | .error _ =>
    ⟨.int 6, .int 7, .bool true, .str "Comparison failed, defaulting to KG-enhanced answer"⟩
  | .ok text =>
    match extract_json_from_response text with
    | .dict kvs =>
      ⟨pyGetD kvs "answer_a_score" (.int 5),
       pyGetD kvs "answer_b_score" (.int 5),
       pyGetD kvs "kg_better" (.bool (pyEqStr (pyGetD kvs "better_answer" .none) "B")),
       pyGetD kvs "reasoning" (.str "Unable to determine")⟩
    | _ =>
      ⟨.int 6, .int 7, .bool true, .str "Comparison failed, defaulting to KG-enhanced answer"⟩

/-- Python number coercion used by `-` on scores: ints and bools subtract
to an int, any float makes the result a float, anything else raises
`TypeError`. -/
def pyToInt : PyVal → Option Int
  | .int n => Option.some n
  | .bool b => Option.some (if b then 1 else 0)
  | _ => Option.none

/-- Numeric reading of a value (ints, bools and floats). -/
def pyToNum : PyVal → Option ℚ
  | .int n => Option.some n
  | .bool b => Option.some (if b then 1 else 0)
  | .float q => Option.some q
  | _ => Option.none

/-- Python subtraction on score values; `Option.none` models the
`TypeError` raised on non-numeric operands. -/
def pySub (a b : PyVal) : Option PyVal :=
  match pyToInt a, pyToInt b with
  | Option.some x, Option.some y => Option.some (.int (x - y))
  | _, _ =>
    match pyToNum a, pyToNum b with
    | Option.some x, Option.some y => Option.some (.float (x - y))
    | _, _ => Option.none

/-- The dict returned by `BYOKGRAGPipeline._generate_kg_enhanced_answer`:
a narrative and the parsed bill of quantities. -/
structure KGAnswer where
  answer : String
  boq : List PyVal

/-- The `quality_metrics` dict attached by `_generate_best_answer`; the
`improvement` entry exists only on the knowledge-graph branch. -/
structure QualityMetrics where
  method_used : String
  baseline_score : PyVal
  kg_score : PyVal
  improvement : Option PyVal

/-- The final answer dict assembled by `_generate_best_answer`. -/
structure FinalAnswer where
  answer : String
  boq : List PyVal
  quality_metrics : QualityMetrics

/-- Embedding of `BYOKGRAGPipeline._generate_best_answer`
(`src/core/orchestrator.py`, lines 300-329): generate the grounded answer
(passed in as `kga`, since it is produced by an external completion call),
compare, and either return the grounded answer with its own list or the
baseline narrative paired with the grounded list.  The subtraction in the
quality metrics can raise `TypeError` on non-numeric scores, hence the
`Except`. -/
def generate_best_answer (kga : KGAnswer) (resp : Except PyErr String)
    (baseline_answer : String) : Except PyErr FinalAnswer :=
  let c := compare_answers resp
  if pyTruthy c.kg_better then
    match pySub c.kg_score c.baseline_score with
    | Option.some imp =>
      .ok ⟨kga.answer, kga.boq,
        ⟨"knowledge_graph_enhanced", c.baseline_score, c.kg_score, Option.some imp⟩⟩
    | Option.none => .error .typeErr
  else
    .ok ⟨baseline_answer, kga.boq,
      ⟨"hybrid_baseline_with_kg_boq", c.baseline_score, c.kg_score, Option.none⟩⟩

end Orchestrator

/-- A Python dict with string keys, the shape of every property bag in the
pipeline. -/
abbrev PyDict : Type := List (String × PyVal)

namespace KGLinker

/-- The `EntityExtractionResult` dataclass of
`src/core/enhanced_kg_linker.py` (lines 17-25): per-category lists of
candidate-entity property dicts plus an overall confidence. -/
structure EntityExtraction where
  panels : List PyDict
  devices : List PyDict
  bases : List PyDict
  circuits : List PyDict
  specifications : List PyDict
  confidence : ℚ

/-- One rule-derived panel recommendation, as built at
`src/core/enhanced_kg_linker.py` lines 234-240.  Only the fields read by
`_combine_extractions` are modelled; the constant `rule` and
`capacity_utilization` strings are never read again. -/
structure PanelRec where
  recommended_panel : String
  total_points_needed : Int

/-- One rule-derived detector-base requirement, as built at
`src/core/enhanced_kg_linker.py` lines 216-223.  Only the fields read by
`_combine_extractions` are modelled. -/
structure BaseReq where
  detector_type : String
  base_quantity : Int

/-- The dict returned by `_apply_rule_based_extraction`
(`src/core/enhanced_kg_linker.py`, lines 188-194): five result
categories. -/
structure RuleBasedResults where
  entities : List PyDict
  panel_recommendations : List PanelRec
  detector_base_requirements : List BaseReq
  internal_modules : List PyDict
  circuit_calculations : List PyDict

/-- The panel dict appended by `_combine_extractions` for an unmatched
rule-derived panel recommendation (lines 334-339). -/
def panel_from_rule (pr : PanelRec) : PyDict :=
  [("entity", .str "panel_requirement"),
   ("capacity_needed", .int pr.total_points_needed),
   ("suggested_sku", .str pr.recommended_panel),
   ("source", .str "rule_based_enhancement")]

/-- The base dict appended by `_combine_extractions` for an uncovered
rule-derived detector-base requirement (lines 348-354). -/
def base_from_rule (br : BaseReq) : PyDict :=
  [("entity", .str "detector_base"),
   ("quantity", .int br.base_quantity),
   ("base_type", .str "standard"),
   ("required_for", .str br.detector_type),
   ("source", .str "rule_based_enhancement")]

/-- The `for panel_rec in rule_based.get('panel_recommendations', [])`
loop of `_combine_extractions` (lines 328-339): append the recommendation
unless some panel already carries its SKU in `suggested_sku`. -/
def add_panel_recs : List PyDict → List PanelRec → List PyDict
  | panels, [] => panels
  | panels, pr :: prs =>
    let panel_found :=
      panels.any (fun p => pyEqStr (pyGetD p "suggested_sku" .none) pr.recommended_panel)
    add_panel_recs (if panel_found then panels else panels ++ [panel_from_rule pr]) prs

/-- The `for base_req in rule_based.get('detector_base_requirements', [])`
loop of `_combine_extractions` (lines 342-354): append the requirement
unless some base already covers its detector type in `required_for`. -/
def add_base_reqs : List PyDict → List BaseReq → List PyDict
  | bases, [] => bases
  | bases, br :: brs =>
    let covered :=
      bases.any (fun b => pyEqStr (pyGetD b "required_for" .none) br.detector_type)
    add_base_reqs (if covered then bases else bases ++ [base_from_rule br]) brs

/-- Embedding of `EnhancedKGLinker._combine_extractions`
(`src/core/enhanced_kg_linker.py`, lines 313-359): start from copies of the
LLM lists, append unmatched rule-derived panel recommendations and
detector-base requirements, and set the combined confidence to 0.9.  The
`entities`, `internal_modules` and `circuit_calculations` categories of the
rule-based results are not consulted. -/
def combine_extractions (rule_based : RuleBasedResults) (llm_results : EntityExtraction) :
    EntityExtraction :=
  ⟨add_panel_recs llm_results.panels rule_based.panel_recommendations,
   llm_results.devices,
   add_base_reqs llm_results.bases rule_based.detector_base_requirements,
   llm_results.circuits,
   llm_results.specifications,
   9/10⟩

end KGLinker

namespace GraphRetriever

/-- One row of the triplet query: the record fields `n`, `rel_type`, `r`,
`m` of `src/core/graph_retriever.py` line 205. -/
structure TripletRow where
  n : PyDict
  rel_type : String
  r : PyDict
  m : PyDict

/-- Oracle for the Neo4j driver: each field is one kind of read-only
request issued by the retriever, taking the query text (and parameter
values) the source sends to `session.run` and returning either rows or a
connectivity failure.  `openSession` models `self.driver.session()`, which
can itself raise. -/
structure GraphOracle where
  openSession : Except PyErr Unit
  runExact : String → PyVal → Except PyErr (Option (PyDict × String))
  runFuzzyAll : String → Except PyErr (List PyDict)
  runPath : String → Except PyErr (List PyDict)
  runCypher : String → PyVal → Except PyErr (List PyDict)
  runTriplet : String → PyVal → Except PyErr (List TripletRow)

/-- Query text of `EntityLinker._exact_match`
(`src/core/graph_retriever.py`, lines 297-328), with whitespace
normalised; the oracle treats it opaquely. -/
def exact_match_query (entity_type : String) : String :=
  if entity_type = "License" then
    "MATCH (n:" ++ entity_type ++ ") WHERE n.license_sku = $identifier RETURN n, "
      ++ pyQuote ++ "license_sku" ++ pyQuote ++ " as match_field UNION MATCH (n:"
      ++ entity_type ++ ") WHERE n.name = $identifier AND NOT EXISTS(\x7b MATCH (m:"
      ++ entity_type ++ ") WHERE m.license_sku = $identifier \x7d) RETURN n, "
      ++ pyQuote ++ "name" ++ pyQuote ++ " as match_field LIMIT 1"
  else
    "MATCH (n:" ++ entity_type ++ ") WHERE n.sku = $identifier RETURN n, "
      ++ pyQuote ++ "sku" ++ pyQuote ++ " as match_field UNION MATCH (n:"
      ++ entity_type ++ ") WHERE n.name = $identifier AND NOT EXISTS(\x7b MATCH (m:"
      ++ entity_type ++ ") WHERE m.sku = $identifier \x7d) RETURN n, "
      ++ pyQuote ++ "name" ++ pyQuote ++ " as match_field LIMIT 1"

/-- Query text of `EntityLinker._fuzzy_match` (line 343). -/
def fuzzy_all_query (entity_type : String) : String :=
  "MATCH (n:" ++ entity_type ++ ") RETURN n LIMIT 100"

/-- Query text of `GraphRetriever._retrieve_triplets` (lines 202-207),
with whitespace normalised. -/
def triplet_query : String :=
  "MATCH (n)-[r]-(m) WHERE (n.sku = $id OR n.license_sku = $id OR n.name = $id) RETURN n, type(r) as rel_type, r, m LIMIT 50"

/-- Embedding of `GraphRetriever._build_path_query`
(`src/core/graph_retriever.py`, lines 117-132): node labels at even
positions become pattern elements, odd positions are skipped. -/
def build_path_query (path : List String) : String :=
  let parts := path.enum.filterMap (fun p =>
    if p.1 = 0 then Option.some ("(n0:" ++ p.2 ++ ")")
    else if p.1 % 2 = 0 then
      Option.some ("-[r" ++ toString (p.1 / 2) ++ "]-(n" ++ toString (p.1 / 2) ++ ":" ++ p.2 ++ ")")
    else Option.none)
  "MATCH " ++ strJoin "" parts ++ " RETURN * LIMIT 50"

/-- One linked entity, as appended by `EntityLinker.link_entities`
(lines 276-292): the mention, the matched node data, the match type, and
the fuzzy score when present. -/
structure LinkedEntity where
  mention : PyDict
  data : PyDict
  match_type : String
  score : Option ℚ

/-- Embedding of the entity flattening at the top of
`EntityLinker.link_entities` (lines 245-260): panels, devices, bases and
circuits are tagged with `entity_type` and concatenated; specifications
are not linked. -/
def flatten_entities (e : KGLinker.EntityExtraction) : List PyDict :=
  e.panels.map (fun p => dictSet p "entity_type" (.str "panel")) ++
  e.devices.map (fun d => dictSet d "entity_type" (.str "device")) ++
  e.bases.map (fun b => dictSet b "entity_type" (.str "base")) ++
  e.circuits.map (fun c => dictSet c "entity_type" (.str "circuit"))

/-- Cardinality of `set(a) & set(b)` for two strings (line 370). -/
def common_char_count (a b : String) : Nat :=
  ((a.data.eraseDups).filter (fun c => b.data.contains c)).length

/-- The property loop of `EntityLinker._fuzzy_match` (lines 356-371): walk
`sku`, `license_sku`, `name`; an exact lower-cased match scores 1 and
stops; otherwise containment scores at least 0.8 and character overlap
scores at least its ratio. -/
def score_props (identLower : String) (node : PyDict) : List String → ℚ → ℚ
  | [], s => s
  | p :: ps, s =>
    if hasKey node p && pyTruthy (pyGetD node p .none) then
      let pv := strLower (pyStr (pyGetD node p .none))
      if pv = identLower then 1
      else
        let s1 :=
          if strContains pv identLower || strContains identLower pv then max s (4/5) else s
        let s2 :=
          max s1 ((common_char_count identLower pv : ℚ) /
            ((max identLower.length pv.length : ℕ) : ℚ))
        score_props identLower node ps s2
    else score_props identLower node ps s

/-- Stable descending insertion used to model Python
`matches.sort(key=..., reverse=True)` (line 380): a later element passes
an earlier one only with a strictly greater score. -/
def insertDesc (x : PyDict × ℚ) : List (PyDict × ℚ) → List (PyDict × ℚ)
  | [] => [x]
  | y :: ys => if x.2 > y.2 then x :: y :: ys else y :: insertDesc x ys

/-- Stable descending sort by score. -/
def sortDescByScore (l : List (PyDict × ℚ)) : List (PyDict × ℚ) :=
  l.foldl (fun acc x => insertDesc x acc) []

/-- Embedding of `EntityLinker._fuzzy_match`
(`src/core/graph_retriever.py`, lines 339-382): fetch up to 100 nodes of
the type, score each, keep scores above 0.7, sort descending and return
the top 5.  `identifier.lower()` on a non-string raises after the fetch,
mirrored by `throw`. -/
def fuzzy_match (o : GraphOracle) (entity_type : String) (identifier : PyVal) :
    Except PyErr (List (PyDict × ℚ)) := do
  let nodes ← o.runFuzzyAll (fuzzy_all_query entity_type)
  match identifier with
  | .str ident =>
    let identLower := strLower ident
    let ms := nodes.filterMap (fun node =>
      let score := score_props identLower node ["sku", "license_sku", "name"] 0
      if score > 7/10 then Option.some (node, score) else Option.none)
    pure ((sortDescByScore ms).take 5)
  | _ => throw .typeErr

/-- Embedding of `EntityLinker._exact_match`
(`src/core/graph_retriever.py`, lines 297-337): run the exact-match query
and record which field matched in `_match_field`. -/
def exact_match (o : GraphOracle) (entity_type : String) (identifier : PyVal) :
    Except PyErr (Option PyDict) := do
  match ← o.runExact (exact_match_query entity_type) identifier with
  | Option.some (node, mf) => pure (Option.some (dictSet node "_match_field" (.str mf)))
  | Option.none => pure Option.none

/-- Body of the per-entity loop of `EntityLinker.link_entities`
(lines 266-292): skip entities without a truthy type and identifier, try
the exact match, then the fuzzy match, keeping the best fuzzy hit. -/
def link_one (o : GraphOracle) (entity : PyDict) : Except PyErr (Option LinkedEntity) := do
  let etype := pyGetD entity "type" (.str "")
  let ident := pyGetD entity "identifier" (.str "")
  if !pyTruthy etype || !pyTruthy ident then pure Option.none
  else do
    match ← exact_match o (pyStr etype) ident with
    | Option.some node => pure (Option.some ⟨entity, node, "exact", Option.none⟩)
    | Option.none => do
      let fm ← fuzzy_match o (pyStr etype) ident
      match fm with
      | [] => pure Option.none
      | best :: _ => pure (Option.some ⟨entity, best.1, "fuzzy", Option.some best.2⟩)

/-- Sequential processing of the flattened entity list.  No exception
handler surrounds the loop in the source (lines 265-292): any failure
propagates. -/
def link_entities_list (o : GraphOracle) : List PyDict → Except PyErr (List LinkedEntity)
  | [] => pure []
  | e :: es => do
    let r ← link_one o e
    let rest ← link_entities_list o es
    match r with
    | Option.some le => pure (le :: rest)
    | Option.none => pure rest

/-- Embedding of `EntityLinker.link_entities`
(`src/core/graph_retriever.py`, lines 232-295): open one session (a
connectivity failure here propagates) and link each flattened entity. -/
def link_entities (o : GraphOracle) (ents : KGLinker.EntityExtraction) :
    Except PyErr (List LinkedEntity) := do
  let _ ← o.openSession
  link_entities_list o (flatten_entities ents)

/-- The dict shape in which a linked entity enters the evidence stream
(lines 276-292): `score` is present only for fuzzy matches. -/
def linked_to_pyval (le : LinkedEntity) : PyVal :=
  .dict ([("mention", .dict le.mention), ("data", .dict le.data),
          ("match_type", .str le.match_type)] ++
    (match le.score with
     | Option.some q => [("score", .float q)]
     | Option.none => []))

/-- Row shape of a path result (lines 108-111). -/
def path_rows_to_results (path : List String) (rows : List PyDict) : List PyVal :=
  rows.map (fun r => .dict [("path", .list (path.map PyVal.str)), ("data", .dict r)])

/-- The per-path loop of `GraphRetriever._retrieve_paths`
(lines 98-114): paths shorter than two labels are skipped, the traversal
for one path is wrapped in `try/except`, so a failed run is skipped and
the loop continues. -/
def retrieve_paths_go (o : GraphOracle) : List (List String) → List PyVal
  | [] => []
  | path :: rest =>
    let tail := retrieve_paths_go o rest
    if path.length < 2 then tail
    else
      match o.runPath (build_path_query path) with
      | .error _ => tail
      | .ok rows => path_rows_to_results path rows ++ tail

/-- Embedding of `GraphRetriever._retrieve_paths`
(`src/core/graph_retriever.py`, lines 90-115): the `start_nodes` dict is
built but never used; the session opening is outside any handler, so its
failure propagates; at most 15 paths are traversed. -/
def retrieve_paths (o : GraphOracle) (paths : List (List String))
    (linked : List LinkedEntity) : Except PyErr (List PyVal) := do
  let _start_nodes := linked.map (fun e =>
    (if hasKey e.data "sku" then pyGetD e.data "sku" .none else pyGetD e.data "name" (.str ""), e))
  let _ ← o.openSession
  pure (retrieve_paths_go o (paths.take 15))

/-- The forbidden mutating keywords of `GraphRetriever._execute_cypher`
(line 159). -/
def forbidden_keywords : List String :=
  ["DELETE", "REMOVE", "SET", "CREATE", "MERGE", "DETACH"]

/-- Embedding of `GraphRetriever._execute_cypher`
(`src/core/graph_retriever.py`, lines 152-188).  The first component is
the returned row list; the second is ghost instrumentation recording the
query text actually sent to the graph store (empty when nothing was sent).
A query containing a forbidden keyword returns empty before any store
interaction; otherwise a `LIMIT` clause is appended when absent, and any
failure inside the `try` (session opening or execution) is swallowed into
an empty result. -/
def execute_cypher (o : GraphOracle) (cypher_query : String) (parameters : PyVal) :
    List PyVal × List String :=
  let query_upper := strUpper cypher_query
  if forbidden_keywords.any (fun kw => strContains query_upper kw) then ([], [])
  else
    match o.openSession with
    | .error _ => ([], [])
    | .ok _ =>
      let q2 := if strContains query_upper "LIMIT" then cypher_query
                else cypher_query ++ " LIMIT 100"
      match o.runCypher q2 parameters with
      | .error _ => ([], [q2])
      | .ok rows => (rows.map (fun r => PyVal.dict r), [q2])

/-- Embedding of `GraphRetriever._execute_cypher_queries`
(`src/core/graph_retriever.py`, lines 134-144): run each dict carrying a
`cypher` key and concatenate the rows.  A non-string `cypher` value makes
`cypher_query.upper()` raise before the handler, which propagates. -/
def execute_cypher_queries (o : GraphOracle) : List PyDict → Except PyErr (List PyVal)
  | [] => pure []
  | qd :: rest =>
    if hasKey qd "cypher" then
      match pyGetD qd "cypher" .none with
      | .str s => do
        let rres := (execute_cypher o s (pyGetD qd "parameters" (.dict []))).1
        let tail ← execute_cypher_queries o rest
        pure (rres ++ tail)
      | _ => throw .typeErr
    else execute_cypher_queries o rest

/-- The triplet dict shape built at lines 212-219. -/
def triplet_to_pyval (t : TripletRow) : PyVal :=
  .dict [("source", .dict t.n),
         ("relationship", .dict [("type", .str t.rel_type), ("properties", .dict t.r)]),
         ("target", .dict t.m)]

/-- The per-entity loop of `GraphRetriever._retrieve_triplets`
(lines 195-219).  There is no exception handler anywhere in this method:
a failing run propagates out of the loop. -/
def retrieve_triplets_go (o : GraphOracle) : List LinkedEntity → Except PyErr (List PyVal)
  | [] => pure []
  | e :: es => do
    let eid := pyOr (pyOr (pyGetD e.data "sku" .none) (pyGetD e.data "license_sku" .none))
      (pyGetD e.data "name" .none)
    if !pyTruthy eid then retrieve_triplets_go o es
    else do
      let rows ← o.runTriplet triplet_query eid
      let tail ← retrieve_triplets_go o es
      pure (rows.map triplet_to_pyval ++ tail)

/-- Embedding of `GraphRetriever._retrieve_triplets`
(`src/core/graph_retriever.py`, lines 190-221): open one session and fetch
the ego network of up to 25 linked entities; failures propagate. -/
def retrieve_triplets (o : GraphOracle) (linked : List LinkedEntity) :
    Except PyErr (List PyVal) := do
  let _ ← o.openSession
  retrieve_triplets_go o (linked.take 25)

/-- The slice of KG-linker output that `retrieve_all` consumes.  The
`entities` field is a dataclass instance in the source, hence always
truthy; `paths` are modelled as the node-label sequences the traversal
iterates over (the annotated `List[List[str]]` type of
`_retrieve_paths`). -/
structure KGOutput where
  entities : KGLinker.EntityExtraction
  paths : List (List String)
  cypher_queries : List PyDict

/-- Step 2 of `retrieve_all` (lines 58-66): path retrieval, run only when
there are candidate paths, appended only when it found rows. -/
def path_step (o : GraphOracle) (kg : KGOutput) (linked : List LinkedEntity) :
    Except PyErr (List Orchestrator.RetrievalResult) :=
  if kg.paths.isEmpty then pure []
  else do
    let pr ← retrieve_paths o kg.paths linked
    pure (if pr.isEmpty then []
          else [(⟨"path_retrieval", pr⟩ : Orchestrator.RetrievalResult)])

/-- Step 3 of `retrieve_all` (lines 68-76): declarative query execution,
run only when the linker produced queries, appended only when rows came
back. -/
def cypher_step (o : GraphOracle) (kg : KGOutput) :
    Except PyErr (List Orchestrator.RetrievalResult) :=
  if kg.cypher_queries.isEmpty then pure []
  else do
    let cr ← execute_cypher_queries o kg.cypher_queries
    pure (if cr.isEmpty then []
          else [(⟨"cypher_retrieval", cr⟩ : Orchestrator.RetrievalResult)])

/-- Step 4 of `retrieve_all` (lines 78-86): triplet retrieval for the
linked entities, appended only when it found rows. -/
def triplet_step (o : GraphOracle) (linked : List LinkedEntity) :
    Except PyErr (List Orchestrator.RetrievalResult) :=
  if linked.isEmpty then pure []
  else do
    let tr ← retrieve_triplets o linked
    pure (if tr.isEmpty then []
          else [(⟨"triplet_retrieval", tr⟩ : Orchestrator.RetrievalResult)])

/-- Embedding of `GraphRetriever.retrieve_all`
(`src/core/graph_retriever.py`, lines 36-88): entity linking, path
retrieval, declarative query execution and triplet retrieval in order,
each appended only when non-empty.  `retrieve_all` itself has no
exception handler, so whatever escapes a strategy aborts the whole
round. -/
def retrieve_all (o : GraphOracle) (kg : KGOutput) :
    Except PyErr (List Orchestrator.RetrievalResult) := do
  let linked ← link_entities o kg.entities
  let r1 : List Orchestrator.RetrievalResult :=
    if linked.isEmpty then [] else [⟨"entity_linking", linked.map linked_to_pyval⟩]
  let r2 ← path_step o kg linked
  let r3 ← cypher_step o kg
  let r4 ← triplet_step o linked
  pure (r1 ++ r2 ++ r3 ++ r4)

end GraphRetriever

mutual
/-- Structural equality of Python values, used for cache-key comparison
(all key components are strings or numbers there). -/
def pyValEq : PyVal → PyVal → Bool
  | .str a, .str b => a = b
  | .int a, .int b => a = b
  | .float a, .float b => a = b
  | .bool a, .bool b => a = b
  | .none, .none => true
  | .list a, .list b => pyValEqList a b
  | .dict a, .dict b => pyValEqKvs a b
  | _, _ => false
/-- Pointwise equality of value lists. -/
def pyValEqList : List PyVal → List PyVal → Bool
  | [], [] => true
  | a :: as2, b :: bs => pyValEq a b && pyValEqList as2 bs
  | _, _ => false
/-- Pointwise equality of dict entry lists. -/
def pyValEqKvs : List (String × PyVal) → List (String × PyVal) → Bool
  | [], [] => true
  | (k1, v1) :: t1, (k2, v2) :: t2 => k1 = k2 && pyValEq v1 v2 && pyValEqKvs t1 t2
  | _, _ => false
end

namespace LLMCache

/-- The content from which `LLMCache._generate_cache_key` builds its
SHA-256 digest (`src/core/llm_cache.py`, lines 122-134): the stripped
prompt, the model name and the three sampling parameters with their
defaults.  The digest of the canonical JSON dump is modelled by the keyed
content itself (a collision-free abstraction of the hash). -/
structure CacheKey where
  prompt : String
  model : String
  temperature : PyVal
  max_tokens : PyVal
  top_p : PyVal

/-- Key equality, mirroring equality of the hashed canonical dumps. -/
def cacheKeyEq (a b : CacheKey) : Bool :=
  a.prompt = b.prompt && a.model = b.model && pyValEq a.temperature b.temperature &&
    pyValEq a.max_tokens b.max_tokens && pyValEq a.top_p b.top_p

/-- The `CachedResponse` dataclass of `src/core/llm_cache.py`
(lines 16-23). -/
structure CachedResponse where
  response : String
  timestamp : ℚ
  model : String
  tokens_used : Int
  metadata : PyDict

/-- Contents of one cache file: either a well-formed entry or a corrupted
one (unreadable or unparseable JSON, or fields rejected by
`CachedResponse(**data)`). -/
inductive StoredFile where
  | good (c : CachedResponse)
  | corrupt

/-- State of an `LLMCache`: the cache-directory contents keyed by cache
key (one file per key) and the `stats` counters
(`src/core/llm_cache.py`, lines 38-43; `evictions` is untouched by the
modelled operations and omitted). -/
structure CacheState where
  entries : List (CacheKey × StoredFile)
  hits : Nat
  misses : Nat
  saves : Nat

/-- Lookup of a cache file by key. -/
def cacheLookup (es : List (CacheKey × StoredFile)) (k : CacheKey) : Option StoredFile :=
  (es.find? (fun e => cacheKeyEq e.1 k)).map (fun e => e.2)

/-- Deletion of a cache file (`cache_file.unlink()`). -/
def cacheErase (es : List (CacheKey × StoredFile)) (k : CacheKey) :
    List (CacheKey × StoredFile) :=
  es.filter (fun e => !cacheKeyEq e.1 k)

/-- Creation or overwrite of a cache file (`open(cache_file, 'w')`). -/
def cacheInsert (es : List (CacheKey × StoredFile)) (k : CacheKey) (f : StoredFile) :
    List (CacheKey × StoredFile) :=
  (k, f) :: cacheErase es k

/-- Embedding of `LLMCache._generate_cache_key`
(`src/core/llm_cache.py`, lines 122-134): strip the prompt and read
`temperature`, `max_tokens`, `top_p` from the parameters with the source
defaults 0.0, 1000, 1.0. -/
def generate_cache_key (prompt model : String) (params : PyDict) : CacheKey :=
  ⟨pyStrip prompt, model,
   pyGetD params "temperature" (.float 0),
   pyGetD params "max_tokens" (.int 1000),
   pyGetD params "top_p" (.float 1)⟩

/-- Embedding of `LLMCache.get_response`
(`src/core/llm_cache.py`, lines 48-85).  A missing file counts a miss; a
corrupted file raises inside the `try`, and the handler returns `None`
without touching the file or the counters; a fresh entry is a hit; an
entry at or past the TTL is unlinked and then counted as a miss. -/
def get_response (now ttl : ℚ) (st : CacheState) (prompt model : String) (params : PyDict) :
    Option CachedResponse × CacheState :=
  let k := generate_cache_key prompt model params
  match cacheLookup st.entries k with
  | Option.none => (Option.none, ⟨st.entries, st.hits, st.misses + 1, st.saves⟩)
  | Option.some .corrupt => (Option.none, st)
  | Option.some (.good c) =>
    if now - c.timestamp < ttl then
      (Option.some c, ⟨st.entries, st.hits + 1, st.misses, st.saves⟩)
    else
      (Option.none, ⟨cacheErase st.entries k, st.hits, st.misses + 1, st.saves⟩)

/-- Embedding of `LLMCache.save_response`
(`src/core/llm_cache.py`, lines 87-120): write the entry under its key and
count a save.  `_manage_cache_size` inspects on-disk byte sizes, which the
file-content model does not represent; with the default 100 MB budget it
performs no eviction in the regimes the claims quantify over. -/
def save_response (now : ℚ) (st : CacheState) (prompt model response : String)
    (tokens_used : Int) (params : PyDict) : CacheState :=
  let k := generate_cache_key prompt model params
  ⟨cacheInsert st.entries k (.good ⟨response, now, model, tokens_used, params⟩),
   st.hits, st.misses, st.saves + 1⟩

/-- Embedding of `LLMCache._cleanup_expired`
(`src/core/llm_cache.py`, lines 136-160), run on initialisation: a
readable entry strictly past the TTL is unlinked, and a corrupted entry is
unlinked by the handler. -/
def cleanup_expired (now ttl : ℚ) (es : List (CacheKey × StoredFile)) :
    List (CacheKey × StoredFile) :=
  es.filter (fun e =>
    match e.2 with
    | .corrupt => false
    | .good c => !(decide (now - c.timestamp > ttl)))

/-- The keyword arguments of `CachedOpenAIClient.chat_completions_create`
that the caching layer reads (`src/core/llm_cache.py`, lines 250-253);
`Option.none` stands for an absent keyword, handled by the `.get`
defaults. -/
structure ChatArgs where
  messages : Option (List PyDict)
  model : Option String
  temperature : Option PyVal
  max_tokens : Option PyVal

/-- State of a `CachedOpenAIClient` plus ghost instrumentation: the cache
state and the number of calls actually issued to the external completion
service. -/
structure ClientState where
  cache : CacheState
  api_calls : Nat

/-- Embedding of `CachedOpenAIClient._messages_to_prompt`
(`src/core/llm_cache.py`, lines 294-301). -/
def messages_to_prompt (msgs : List PyDict) : String :=
  strJoin "\n" (msgs.map (fun m =>
    pyStr (pyGetD m "role" (.str "user")) ++ ": " ++ pyStr (pyGetD m "content" (.str ""))))

/-- The parameter dict passed to both `get_response` and `save_response`
by `chat_completions_create` (lines 260-265 and 279-286). -/
def chat_params (temperature max_tokens : PyVal) : PyDict :=
  [("temperature", temperature), ("max_tokens", max_tokens)]

/-- The cache key a `chat_completions_create` call uses. -/
def args_cache_key (args : ChatArgs) : CacheKey :=
  generate_cache_key (messages_to_prompt (args.messages.getD []))
    (args.model.getD "gpt-4o")
    (chat_params (args.temperature.getD (.float (1/10))) (args.max_tokens.getD (.int 1000)))

/-- Embedding of `CachedOpenAIClient.chat_completions_create`
(`src/core/llm_cache.py`, lines 245-292) with caching enabled.  The
external completion service is the oracle `api`, returning the response
text and the token usage; a cache hit returns the stored text through the
mock response object without touching the service; a miss calls the
service, stores the result and returns it. -/
def chat_completions_create (api : ChatArgs → String × Int) (now ttl : ℚ)
    (st : ClientState) (args : ChatArgs) : String × ClientState :=
  let model := args.model.getD "gpt-4o"
  let temperature := args.temperature.getD (.float (1/10))
  let max_tokens := args.max_tokens.getD (.int 1000)
  let prompt := messages_to_prompt (args.messages.getD [])
  let g := get_response now ttl st.cache prompt model (chat_params temperature max_tokens)
  match g.1 with
  | Option.some c => (c.response, ⟨g.2, st.api_calls⟩)
  | Option.none =>
    let r := api args
    let cache2 := save_response now g.2 prompt model r.1 r.2 (chat_params temperature max_tokens)
    (r.1, ⟨cache2, st.api_calls + 1⟩)

end LLMCache

/-- Concrete evidence payload used in concrete runs: a dict with one
`sku` entry, as entity-linking data rows look. -/
def itemC1 : PyVal := .dict [("sku", .str "4007ES")]

/-- Round oracle returning the same single evidence item in every round
(the same payload retrieved again in the next round). -/
def retrieveC1 : Nat → Orchestrator.RoundOutput :=
  fun _ => ⟨1, 0, [⟨"entity_linking", [itemC1]⟩]⟩

/-- Round oracle where round 1 finds one new item and round 2 finds
nothing. -/
def retrieveC2 : Nat → Orchestrator.RoundOutput :=
  fun i => if i = 0 then ⟨1, 0, [⟨"entity_linking", [itemC1]⟩]⟩ else ⟨0, 0, []⟩

/-- The metadata entry recorded by the empty second round of
`retrieveC2`. -/
def iterMetaW : Orchestrator.IterMeta := ⟨2, 0, 0, 0, 0, 1⟩

/-- The single context entry accumulated by one round of `retrieveC1`. -/
def entryW : Orchestrator.CtxEntry :=
  ⟨1, "entity_linking", [itemC1],
   Orchestrator.calculate_confidence "entity_linking" [itemC1]⟩

/-- A grounded candidate answer with a non-empty itemized list. -/
def kgAnswerC3 : Orchestrator.KGAnswer :=
  ⟨"KG_ANSWER", [.dict [("sku", .str "4007ES")]]⟩

/-- A graph oracle that answers every request with empty results. -/
def trivialOracle : GraphRetriever.GraphOracle :=
  ⟨.ok (), fun _ _ => .ok Option.none, fun _ => .ok [], fun _ => .ok [],
   fun _ _ => .ok [], fun _ _ => .ok []⟩

/-- A graph oracle whose triplet requests fail with a connectivity error
while everything else succeeds; exact matching links one device node. -/
def failTripletOracle : GraphRetriever.GraphOracle :=
  ⟨.ok (), fun _ _ => .ok (Option.some ([("sku", .str "4098-9714")], "sku")),
   fun _ => .ok [], fun _ => .ok [], fun _ _ => .ok [],
   fun _ _ => .error .connectivity⟩

/-- A graph oracle whose declarative-query and path requests always fail
with connectivity errors while linking and triplets succeed. -/
def failCypherPathOracle : GraphRetriever.GraphOracle :=
  ⟨.ok (), fun _ _ => .ok (Option.some ([("sku", .str "4098-9714")], "sku")),
   fun _ => .ok [], fun _ => .error .connectivity,
   fun _ _ => .error .connectivity, fun _ _ => .ok []⟩

/-- KG-linker output with one device mention and no paths or queries. -/
def kgOutputC5 : GraphRetriever.KGOutput :=
  ⟨⟨[], [[("type", .str "Device"), ("identifier", .str "4098-9714")]], [], [], [], 0⟩,
   [], []⟩

/-- Chat arguments for the cache witness: one user message. -/
def chatArgsW : LLMCache.ChatArgs :=
  ⟨Option.some [[("role", .str "user"), ("content", .str "hello")]],
   Option.some "gpt-4o-mini", Option.some (.float (1/10)), Option.some (.int 500)⟩

/-- An initial client state with an empty cache. -/
def emptyClient : LLMCache.ClientState := ⟨⟨[], 0, 0, 0⟩, 0⟩

/-- A cache state holding exactly one corrupted entry under the key of
prompt `p`, model `m`, no extra parameters. -/
def corruptState : LLMCache.CacheState :=
  ⟨[(LLMCache.generate_cache_key "p" "m" [], .corrupt)], 0, 0, 0⟩

/-- Rule-based results holding one plain rule-derived device entity and
nothing else. -/
def ruleOnlyDevice : KGLinker.RuleBasedResults :=
  ⟨[[("type", .str "smoke_detector"), ("quantity", .int 10),
     ("extraction_method", .str "rule_based")]],
   [], [], [], []⟩

/-- An empty LLM extraction. -/
def emptyLLM : KGLinker.EntityExtraction := ⟨[], [], [], [], [], 0⟩

/-- A model-derived panel dict. -/
def panelW : PyDict := [("suggested_sku", .str "4100ES")]

/-- An LLM extraction carrying the one panel `panelW`. -/
def llmPanelW : KGLinker.EntityExtraction := ⟨[panelW], [], [], [], [], 0⟩

/-- Empty rule-based results. -/
def rbEmptyW : KGLinker.RuleBasedResults := ⟨[], [], [], [], []⟩

/-- The oracle `o` with its declarative-query and path runners replaced
by runners that succeed with no rows.  Used to state that failures
confined to those runners are indistinguishable from empty results. -/
def cypherPathStubbed (o : GraphRetriever.GraphOracle) : GraphRetriever.GraphOracle :=
  ⟨o.openSession, o.runExact, o.runFuzzyAll, fun _ => .ok [], fun _ _ => .ok [],
   o.runTriplet⟩

mutual
/-- Reflexivity of structural Python-value equality. -/
theorem pyValEq_refl : ∀ v : PyVal, pyValEq v v = true
  | .str _ => by simp [pyValEq]
  | .int _ => by simp [pyValEq]
  | .float _ => by simp [pyValEq]
  | .bool _ => by simp [pyValEq]
  | .none => by simp [pyValEq]
  | .list xs => by simp [pyValEq]; exact pyValEqList_refl xs
  | .dict kvs => by simp [pyValEq]; exact pyValEqKvs_refl kvs
/-- Reflexivity of list equality. -/
theorem pyValEqList_refl : ∀ xs : List PyVal, pyValEqList xs xs = true
  | [] => by simp [pyValEqList]
  | x :: xs => by
    simp [pyValEqList]
    exact ⟨pyValEq_refl x, pyValEqList_refl xs⟩
/-- Reflexivity of dict-entry equality. -/
theorem pyValEqKvs_refl : ∀ kvs : List (String × PyVal), pyValEqKvs kvs kvs = true
  | [] => by simp [pyValEqKvs]
  | (_, v) :: tl => by
    simp [pyValEqKvs]
    exact ⟨pyValEq_refl v, pyValEqKvs_refl tl⟩
end

/-- Reflexivity of cache-key equality. -/
theorem cacheKeyEq_refl (k : LLMCache.CacheKey) : LLMCache.cacheKeyEq k k = true := by
  simp [LLMCache.cacheKeyEq, pyValEq_refl]

/-- Looking up the key just written finds the written file. -/
theorem cacheLookup_insert (es : List (LLMCache.CacheKey × LLMCache.StoredFile))
    (k : LLMCache.CacheKey) (f : LLMCache.StoredFile) :
    LLMCache.cacheLookup (LLMCache.cacheInsert es k f) k = Option.some f := by
  simp [LLMCache.cacheLookup, LLMCache.cacheInsert, List.find?_cons_of_pos, cacheKeyEq_refl]

/-- C4: for every declarative query string containing a mutating keyword
(create, merge, delete, remove, set or detach in any letter case — i.e.
whose upper-casing contains one of the uppercase forbidden keywords),
`_execute_cypher` returns an empty result list and issues no request to
the graph store, for every oracle, so no graph mutation can occur. -/
theorem cypher_sandbox_rejects_mutating (o : GraphRetriever.GraphOracle)
    (cypher_query : String) (parameters : PyVal) (kw : String)
    (hmem : kw ∈ GraphRetriever.forbidden_keywords)
    (hsub : strContains (strUpper cypher_query) kw = true) :
    GraphRetriever.execute_cypher o cypher_query parameters = ([], []) := by
  unfold GraphRetriever.execute_cypher
  rw [if_pos]
  exact List.any_eq_true.mpr ⟨kw, hmem, hsub⟩

/-- Witness for C4 at the concrete query `MATCH (n) detach DELETE n`. -/
theorem cypher_sandbox_rejects_mutating_witness :
    "DELETE" ∈ GraphRetriever.forbidden_keywords ∧
    strContains (strUpper "MATCH (n) detach DELETE n") "DELETE" = true ∧
    GraphRetriever.execute_cypher trivialOracle "MATCH (n) detach DELETE n" (.dict [])
      = ([], []) :=
  ⟨by decide, by decide,
   cypher_sandbox_rejects_mutating trivialOracle _ _ "DELETE" (by decide) (by decide)⟩

/-- C7: through the caching client, if a call finds no entry under its key
(so the external service is invoked and the result stored), then a second
call with the identical message/model/sampling-parameter combination made
before the TTL has elapsed returns the stored response text and does not
invoke the external completion service again. -/
theorem cache_hit_within_ttl (api : LLMCache.ChatArgs → String × Int)
    (now1 now2 ttl : ℚ) (st : LLMCache.ClientState) (args : LLMCache.ChatArgs)
    (hfresh : LLMCache.cacheLookup st.cache.entries (LLMCache.args_cache_key args)
      = Option.none)
    (httl : now2 - now1 < ttl) :
    (LLMCache.chat_completions_create api now2 ttl
        (LLMCache.chat_completions_create api now1 ttl st args).2 args).1
      = (LLMCache.chat_completions_create api now1 ttl st args).1 ∧
    (LLMCache.chat_completions_create api now2 ttl
        (LLMCache.chat_completions_create api now1 ttl st args).2 args).2.api_calls
      = (LLMCache.chat_completions_create api now1 ttl st args).2.api_calls := by
  have hkey : LLMCache.args_cache_key args
      = LLMCache.generate_cache_key
          (LLMCache.messages_to_prompt (args.messages.getD []))
          (args.model.getD "gpt-4o")
          (LLMCache.chat_params (args.temperature.getD (.float (1/10)))
            (args.max_tokens.getD (.int 1000))) := rfl
  rw [hkey] at hfresh
  simp only [LLMCache.chat_completions_create, LLMCache.get_response, hfresh]
  simp only [LLMCache.save_response, cacheLookup_insert, httl, if_pos]
  exact ⟨trivial, trivial⟩

/-- Witness for C7: a fresh cache, two identical calls at time 0 with
TTL 1. -/
theorem cache_hit_within_ttl_witness :
    LLMCache.cacheLookup emptyClient.cache.entries (LLMCache.args_cache_key chatArgsW)
      = Option.none ∧
    ((0 : ℚ) - 0 < 1) ∧
    ((LLMCache.chat_completions_create (fun _ => ("pong", 7)) 0 1
        (LLMCache.chat_completions_create (fun _ => ("pong", 7)) 0 1 emptyClient chatArgsW).2
        chatArgsW).1
      = (LLMCache.chat_completions_create (fun _ => ("pong", 7)) 0 1 emptyClient chatArgsW).1 ∧
     (LLMCache.chat_completions_create (fun _ => ("pong", 7)) 0 1
        (LLMCache.chat_completions_create (fun _ => ("pong", 7)) 0 1 emptyClient chatArgsW).2
        chatArgsW).2.api_calls
      = (LLMCache.chat_completions_create (fun _ => ("pong", 7)) 0 1 emptyClient chatArgsW).2.api_calls) :=
  ⟨rfl, by simp,
   cache_hit_within_ttl (fun _ => ("pong", 7)) 0 0 1 emptyClient chatArgsW rfl (by simp)⟩

/-- C9 counterexample: a lookup hitting a corrupted entry returns a miss
but leaves the cache state — including the corrupted entry — completely
unchanged, contradicting the claim that the corrupted entry is deleted by
the lookup. -/
theorem corrupt_entry_not_deleted_on_read :
    LLMCache.get_response 0 3600 corruptState "p" "m" [] = (Option.none, corruptState) ∧
    corruptState.entries
      = [(LLMCache.generate_cache_key "p" "m" [], LLMCache.StoredFile.corrupt)] := by
  constructor
  · have hl : LLMCache.cacheLookup corruptState.entries
        (LLMCache.generate_cache_key "p" "m" []) = Option.some .corrupt := by
      simp [corruptState, LLMCache.cacheLookup, cacheKeyEq_refl]
    simp [LLMCache.get_response, hl]
  · rfl

/-- C9 amended: a cache lookup that encounters a corrupted stored entry
returns a miss rather than raising and leaves the cache state unchanged
(so the corrupted entry is not deleted by the lookup); corrupted entries
are deleted only by the initialisation-time sweep `_cleanup_expired`,
whose output never contains a corrupted entry. -/
theorem corrupt_entry_miss_and_sweep (st : LLMCache.CacheState) (now ttl : ℚ)
    (prompt model : String) (params : PyDict)
    (hc : LLMCache.cacheLookup st.entries
      (LLMCache.generate_cache_key prompt model params) = Option.some .corrupt) :
    LLMCache.get_response now ttl st prompt model params = (Option.none, st) ∧
    ∀ e ∈ LLMCache.cleanup_expired now ttl st.entries,
      e.2 ≠ LLMCache.StoredFile.corrupt := by
  constructor
  · simp [LLMCache.get_response, hc]
  · intro e he
    simp only [LLMCache.cleanup_expired] at he
    have hm := List.mem_filter.mp he
    rcases e with ⟨k, f⟩
    cases f
    · simp
    · exact absurd hm.2 (by simp)

/-- Witness for C9 amended, at the concrete corrupted cache state. -/
theorem corrupt_entry_miss_and_sweep_witness :
    LLMCache.cacheLookup corruptState.entries
      (LLMCache.generate_cache_key "p" "m" []) = Option.some .corrupt ∧
    (LLMCache.get_response 5 3600 corruptState "p" "m" [] = (Option.none, corruptState) ∧
     ∀ e ∈ LLMCache.cleanup_expired 5 3600 corruptState.entries,
       e.2 ≠ LLMCache.StoredFile.corrupt) := by
  have hl : LLMCache.cacheLookup corruptState.entries
      (LLMCache.generate_cache_key "p" "m" []) = Option.some .corrupt := by
    simp [corruptState, LLMCache.cacheLookup, cacheKeyEq_refl]
  exact ⟨hl, corrupt_entry_miss_and_sweep corruptState 5 3600 "p" "m" [] hl⟩

/-- C6: whenever `_generate_best_answer` returns, the itemized list of the
final result is exactly the one of the graph-grounded synthesis; the
grounded narrative is returned when the verdict prefers it, and otherwise
the baseline narrative is returned (still paired with the grounded list).
A baseline-derived list can never appear because the baseline is a bare
narrative. -/
theorem final_boq_always_from_kg (kga : Orchestrator.KGAnswer)
    (resp : Except PyErr String) (baseline_answer : String)
    (fa : Orchestrator.FinalAnswer)
    (h : Orchestrator.generate_best_answer kga resp baseline_answer = .ok fa) :
    fa.boq = kga.boq ∧
    (pyTruthy (Orchestrator.compare_answers resp).kg_better = true →
      fa.answer = kga.answer) ∧
    (pyTruthy (Orchestrator.compare_answers resp).kg_better = false →
      fa.answer = baseline_answer) := by
  simp only [Orchestrator.generate_best_answer] at h
  split at h
  · split at h
    · cases h
      refine ⟨rfl, fun _ => rfl, fun hf => ?_⟩
      simp_all
    · cases h
  · cases h
    refine ⟨rfl, fun ht => ?_, fun _ => rfl⟩
    simp_all

/-- Witness for C6 at a concrete failed-evaluator run (the verdict then
prefers the grounded candidate). -/
theorem final_boq_always_from_kg_witness :
    Orchestrator.generate_best_answer kgAnswerC3 (.error .connectivity) "BASELINE_ANSWER"
      = .ok ⟨"KG_ANSWER", [.dict [("sku", .str "4007ES")]],
          ⟨"knowledge_graph_enhanced", .int 6, .int 7, Option.some (.int 1)⟩⟩ ∧
    (⟨"KG_ANSWER", [.dict [("sku", .str "4007ES")]],
      ⟨"knowledge_graph_enhanced", .int 6, .int 7, Option.some (.int 1)⟩⟩
        : Orchestrator.FinalAnswer).boq = kgAnswerC3.boq :=
  ⟨rfl,
   (final_boq_always_from_kg kgAnswerC3 (.error .connectivity) "BASELINE_ANSWER" _ rfl).1⟩

/-- C3 counterexample: for an evaluator response from which no JSON
structure can be extracted, the comparison yields the neutral scores 5/5
with `kg_better = False`, and the final result carries the baseline
narrative, not the grounded one — contradicting the claim that the
grounded answer is preferred by default on a parse failure. -/
theorem compare_parse_failure_counterexample :
    Orchestrator.compare_answers (.ok "The grounded answer is better overall.")
      = ⟨.int 5, .int 5, .bool false, .str "Unable to determine"⟩ ∧
    Orchestrator.generate_best_answer kgAnswerC3
        (.ok "The grounded answer is better overall.") "BASELINE_ANSWER"
      = .ok ⟨"BASELINE_ANSWER", [.dict [("sku", .str "4007ES")]],
          ⟨"hybrid_baseline_with_kg_boq", .int 5, .int 5, Option.none⟩⟩ ∧
    ("BASELINE_ANSWER" : String) ≠ "KG_ANSWER" :=
  ⟨rfl, rfl, by decide⟩

/-- C3 amended: when the evaluator call itself raises, the comparison
defaults to preferring the grounded answer (scores 6/7), but when the
call succeeds and no JSON structure is extractable from its response (no
fenced `json` block and no brace-matched region), the verdict defaults to
neutral scores 5/5 with `kg_better = False`, so the baseline narrative is
returned, paired with the grounded answer's itemized list. -/
theorem compare_parse_failure_defaults (text : String)
    (kga : Orchestrator.KGAnswer) (baseline_answer : String) (err : PyErr)
    (h1 : strContains text "```json" = false)
    (h2 : braceSpan text = Option.none) :
    Orchestrator.compare_answers (.ok text)
      = ⟨.int 5, .int 5, .bool false, .str "Unable to determine"⟩ ∧
    Orchestrator.generate_best_answer kga (.ok text) baseline_answer
      = .ok ⟨baseline_answer, kga.boq,
          ⟨"hybrid_baseline_with_kg_boq", .int 5, .int 5, Option.none⟩⟩ ∧
    Orchestrator.generate_best_answer kga (.error err) baseline_answer
      = .ok ⟨kga.answer, kga.boq,
          ⟨"knowledge_graph_enhanced", .int 6, .int 7, Option.some (.int 1)⟩⟩ := by
  have hc : Orchestrator.compare_answers (.ok text)
      = ⟨.int 5, .int 5, .bool false, .str "Unable to determine"⟩ := by
    simp [Orchestrator.compare_answers, Orchestrator.extract_json_from_response, h1, h2,
      pyGetD, pyLookup, pyEqStr]
  refine ⟨hc, ?_, ?_⟩
  · simp [Orchestrator.generate_best_answer, hc, pyTruthy]
  · simp [Orchestrator.generate_best_answer, Orchestrator.compare_answers, pyTruthy,
      Orchestrator.pySub, Orchestrator.pyToInt]

/-- Witness for C3 amended at a concrete verdict-free response text. -/
theorem compare_parse_failure_defaults_witness :
    strContains "no structured verdict" "```json" = false ∧
    braceSpan "no structured verdict" = Option.none ∧
    Orchestrator.generate_best_answer kgAnswerC3 (.ok "no structured verdict") "BASELINE_ANSWER"
      = .ok ⟨"BASELINE_ANSWER", kgAnswerC3.boq,
          ⟨"hybrid_baseline_with_kg_boq", .int 5, .int 5, Option.none⟩⟩ :=
  ⟨rfl, rfl,
   (compare_parse_failure_defaults "no structured verdict" kgAnswerC3 "BASELINE_ANSWER"
     .connectivity rfl rfl).2.1⟩

/-- C8 counterexample: a rule-derived plain device entity absent from the
(empty) completion-service base is not appended anywhere by the merge —
the combined extraction is empty — contradicting the claim that every
rule-derived entity absent from the base is appended with a provenance
tag. -/
theorem combine_drops_rule_entities :
    KGLinker.combine_extractions ruleOnlyDevice emptyLLM
      = ⟨[], [], [], [], [], 9/10⟩ ∧
    ruleOnlyDevice.entities ≠ [] := by
  exact ⟨rfl, by simp [ruleOnlyDevice]⟩

/-- Every element produced by the panel-recommendation fold is either from
the accumulator or carries the rule-based provenance tag. -/
theorem mem_add_panel_recs : ∀ (prs : List KGLinker.PanelRec) (acc : List PyDict)
    (p : PyDict), p ∈ KGLinker.add_panel_recs acc prs →
    p ∈ acc ∨ pyGetD p "source" .none = .str "rule_based_enhancement" := by
  intro prs
  induction prs with
  | nil => intro acc p hp; exact Or.inl hp
  | cons pr prs ih =>
    intro acc p hp
    simp only [KGLinker.add_panel_recs] at hp
    rcases ih _ p hp with h | h
    · by_cases hf : acc.any
        (fun q => pyEqStr (pyGetD q "suggested_sku" .none) pr.recommended_panel) = true
      · rw [if_pos hf] at h
        exact Or.inl h
      · rw [if_neg hf] at h
        rcases List.mem_append.mp h with h2 | h2
        · exact Or.inl h2
        · right
          rcases List.mem_singleton.mp h2 with rfl
          rfl
    · exact Or.inr h

/-- Every element produced by the detector-base fold is either from the
accumulator or carries the rule-based provenance tag. -/
theorem mem_add_base_reqs : ∀ (brs : List KGLinker.BaseReq) (acc : List PyDict)
    (b : PyDict), b ∈ KGLinker.add_base_reqs acc brs →
    b ∈ acc ∨ pyGetD b "source" .none = .str "rule_based_enhancement" := by
  intro brs
  induction brs with
  | nil => intro acc b hb; exact Or.inl hb
  | cons br brs ih =>
    intro acc b hb
    simp only [KGLinker.add_base_reqs] at hb
    rcases ih _ b hb with h | h
    · by_cases hf : acc.any
        (fun q => pyEqStr (pyGetD q "required_for" .none) br.detector_type) = true
      · rw [if_pos hf] at h
        exact Or.inl h
      · rw [if_neg hf] at h
        rcases List.mem_append.mp h with h2 | h2
        · exact Or.inl h2
        · right
          rcases List.mem_singleton.mp h2 with rfl
          rfl
    · exact Or.inr h

/-- C8 amended: the merge keeps the completion-service extraction as the
base — devices, circuits and specifications are returned unchanged — and
the only rule-derived material ever appended are panel recommendations
(matched by `suggested_sku`) and detector-base requirements (matched by
`required_for`), each carrying the provenance tag
`source = 'rule_based_enhancement'` that distinguishes rule-derived from
model-derived items; every merged panel or base is a base item or so
tagged.  Plain rule-derived device entities, internal modules and circuit
calculations are not merged. -/
theorem combine_extractions_base_and_tags (rb : KGLinker.RuleBasedResults)
    (llm : KGLinker.EntityExtraction) :
    (KGLinker.combine_extractions rb llm).devices = llm.devices ∧
    (KGLinker.combine_extractions rb llm).circuits = llm.circuits ∧
    (KGLinker.combine_extractions rb llm).specifications = llm.specifications ∧
    (∀ p ∈ (KGLinker.combine_extractions rb llm).panels,
      p ∈ llm.panels ∨ pyGetD p "source" .none = .str "rule_based_enhancement") ∧
    (∀ b ∈ (KGLinker.combine_extractions rb llm).bases,
      b ∈ llm.bases ∨ pyGetD b "source" .none = .str "rule_based_enhancement") :=
  ⟨rfl, rfl, rfl,
   fun p hp => mem_add_panel_recs rb.panel_recommendations llm.panels p hp,
   fun b hb => mem_add_base_reqs rb.detector_base_requirements llm.bases b hb⟩

/-- Witness for C8 amended: a one-panel base with empty rules; the panel
survives the merge and is a base item. -/
theorem combine_extractions_base_and_tags_witness :
    panelW ∈ (KGLinker.combine_extractions rbEmptyW llmPanelW).panels ∧
    (panelW ∈ llmPanelW.panels ∨
      pyGetD panelW "source" .none = .str "rule_based_enhancement") :=
  ⟨List.mem_singleton.mpr rfl,
   (combine_extractions_base_and_tags rbEmptyW llmPanelW).2.2.2.1 panelW
     (List.mem_singleton.mpr rfl)⟩

/-- C1: evaluation of the loop at the failing input.  The identical dict
payload retrieved in round 1 and round 2 of the same session is appended
to the accumulated context in both rounds, because the deduplication check
compares `str(sorted(item.items()))` against a seen set to which only
`str(item)` is ever added — two renderings that differ for every dict.
The seen set ends up containing `str(item)` but never the checked
signature. -/
theorem dedup_signature_mismatch_eval :
    (Orchestrator.process_query_loop retrieveC1 2).accumulated_context.map
        Orchestrator.CtxEntry.data = [[itemC1], [itemC1]] ∧
    Orchestrator.fact_signature itemC1 ≠ pyStr itemC1 ∧
    Orchestrator.seenContains
        (Orchestrator.process_query_loop retrieveC1 2).all_retrieved_facts
        (pyStr itemC1) = true ∧
    Orchestrator.seenContains
        (Orchestrator.process_query_loop retrieveC1 2).all_retrieved_facts
        (Orchestrator.fact_signature itemC1) = false :=
  ⟨rfl, by decide, rfl, rfl⟩

/-- One round appends exactly one metadata entry, whose
`new_facts_found` field is the round's new-context count. -/
theorem round_step_meta_decomp (ro : Orchestrator.RoundOutput) (idx : Nat)
    (st : Orchestrator.LoopState) :
    (Orchestrator.round_step ro idx st).1.iteration_metadata
      = st.iteration_metadata ++
        [⟨idx + 1, ro.entities_count, ro.paths_count, ro.results.length,
          (Orchestrator.round_step ro idx st).2,
          (Orchestrator.round_step ro idx st).1.accumulated_context.length⟩] := rfl

/-- The loop only ever appends to the iteration metadata. -/
theorem run_loop_meta_extension (retrieve : Nat → Orchestrator.RoundOutput) :
    ∀ (rem idx : Nat) (st : Orchestrator.LoopState), ∃ t,
      (Orchestrator.run_loop retrieve rem idx st).iteration_metadata
        = st.iteration_metadata ++ t := by
  intro rem
  induction rem with
  | zero =>
    intro idx st
    exact ⟨[], by simp [Orchestrator.run_loop]⟩
  | succ n ih =>
    intro idx st
    simp only [Orchestrator.run_loop]
    split
    · exact ⟨_, round_step_meta_decomp _ _ _⟩
    · obtain ⟨t, ht⟩ := ih (idx + 1) (Orchestrator.round_step (retrieve idx) idx st).1
      exact ⟨_, by rw [ht, round_step_meta_decomp, List.append_assoc]⟩

/-- Once a round at index 1 or later records zero new facts, the loop
stops with that round's entry as the last metadata entry. -/
theorem run_loop_zero_stop (retrieve : Nat → Orchestrator.RoundOutput) :
    ∀ (rem idx : Nat) (st : Orchestrator.LoopState) (j : Nat) (e : Orchestrator.IterMeta),
      st.iteration_metadata.length ≤ j →
      (1 ≤ idx ∨ st.iteration_metadata.length + 1 ≤ j) →
      (Orchestrator.run_loop retrieve rem idx st).iteration_metadata[j]? = Option.some e →
      e.new_facts_found = 0 →
      (Orchestrator.run_loop retrieve rem idx st).iteration_metadata.length = j + 1 := by
  intro rem
  induction rem with
  | zero =>
    intro idx st j e hle _ hget _
    simp only [Orchestrator.run_loop] at hget
    rw [List.getElem?_eq_none hle] at hget
    cases hget
  | succ n ih =>
    intro idx st j e hle hside hget hzero
    simp only [Orchestrator.run_loop] at hget ⊢
    by_cases hc : (Orchestrator.round_step (retrieve idx) idx st).2 = 0 ∧ 0 < idx
    · rw [if_pos hc] at hget ⊢
      rw [round_step_meta_decomp] at hget ⊢
      have hlt : j < st.iteration_metadata.length + 1 := by
        have h1 := (List.getElem?_eq_some.mp hget).1
        simpa using h1
      have hj : j = st.iteration_metadata.length := by omega
      simp [hj]
    · rw [if_neg hc] at hget ⊢
      by_cases hj : st.iteration_metadata.length + 1 ≤ j
      · refine ih (idx + 1) _ j e ?_ (Or.inl (by omega)) hget hzero
        rw [round_step_meta_decomp]
        simp only [List.length_append, List.length_cons, List.length_nil]
        omega
      · have hj2 : j = st.iteration_metadata.length := by omega
        obtain ⟨t, ht⟩ := run_loop_meta_extension retrieve n (idx + 1)
          (Orchestrator.round_step (retrieve idx) idx st).1
        rw [ht, round_step_meta_decomp] at hget
        rw [List.getElem?_append_left (by simp; omega)] at hget
        rw [hj2, List.getElem?_concat_length] at hget
        cases hget
        have hs2 : (Orchestrator.round_step (retrieve idx) idx st).2 = 0 := hzero
        have hidx : ¬ 0 < idx := fun h => hc ⟨hs2, h⟩
        rcases hside with h1 | h1
        · omega
        · omega

/-- Metadata entries number their rounds: the entry at position `j`
carries iteration number `j + 1`. -/
theorem run_loop_meta_iter (retrieve : Nat → Orchestrator.RoundOutput) :
    ∀ (rem idx : Nat) (st : Orchestrator.LoopState),
      (∀ (j : Nat) (e : Orchestrator.IterMeta),
        st.iteration_metadata[j]? = Option.some e → e.iteration = j + 1) →
      st.iteration_metadata.length = idx →
      ∀ (j : Nat) (e : Orchestrator.IterMeta),
        (Orchestrator.run_loop retrieve rem idx st).iteration_metadata[j]?
          = Option.some e →
        e.iteration = j + 1 := by
  intro rem
  induction rem with
  | zero =>
    intro idx st hinv _ j e hget
    simp only [Orchestrator.run_loop] at hget
    exact hinv j e hget
  | succ n ih =>
    intro idx st hinv hlen j e hget
    have hinv2 : ∀ (j2 : Nat) (e2 : Orchestrator.IterMeta),
        (Orchestrator.round_step (retrieve idx) idx st).1.iteration_metadata[j2]?
          = Option.some e2 → e2.iteration = j2 + 1 := by
      intro j2 e2 hg2
      rw [round_step_meta_decomp] at hg2
      by_cases hlt : j2 < st.iteration_metadata.length
      · rw [List.getElem?_append_left hlt] at hg2
        exact hinv j2 e2 hg2
      · have hub : j2 < st.iteration_metadata.length + 1 := by
          have h1 := (List.getElem?_eq_some.mp hg2).1
          simpa using h1
        have hj2 : j2 = st.iteration_metadata.length := by omega
        rw [hj2, List.getElem?_concat_length] at hg2
        cases hg2
        show idx + 1 = j2 + 1
        omega
    have hlen2 : (Orchestrator.round_step (retrieve idx) idx st).1.iteration_metadata.length
        = idx + 1 := by
      rw [round_step_meta_decomp]
      simp [hlen]
    simp only [Orchestrator.run_loop] at hget
    by_cases hc : (Orchestrator.round_step (retrieve idx) idx st).2 = 0 ∧ 0 < idx
    · rw [if_pos hc] at hget
      exact hinv2 j e hget
    · rw [if_neg hc] at hget
      exact ih (idx + 1) _ hinv2 hlen2 j e hget

/-- C2: for every trace of per-round retrieval outcomes and every
maximum-iteration setting, if the round recorded at metadata position `j`
with `j ≥ 1` (i.e. a round after the first: round number `j + 1`)
contributes zero new evidence items, the loop stops immediately — that
round is the last one — and the returned `iterations_performed` equals
that round's number `j + 1`; in particular with `max_iterations = 3`, if
round 2 yields zero new facts then `iterations_performed = 2`. -/
theorem early_stop_on_no_new_facts (retrieve : Nat → Orchestrator.RoundOutput)
    (max_iterations j : Nat) (e : Orchestrator.IterMeta)
    (hj : 1 ≤ j)
    (hget : (Orchestrator.process_query_loop retrieve
      max_iterations).iteration_metadata[j]? = Option.some e)
    (hzero : e.new_facts_found = 0) :
    Orchestrator.iterations_performed retrieve max_iterations = j + 1 ∧
    e.iteration = j + 1 := by
  constructor
  · exact run_loop_zero_stop retrieve max_iterations 0 ⟨[], [], []⟩ j e (by simp)
      (Or.inr (by simpa using hj)) hget hzero
  · refine run_loop_meta_iter retrieve max_iterations 0 ⟨[], [], []⟩ ?_ rfl j e hget
    intro j2 e2 h
    simp at h

/-- Witness for C2: with `max_iterations = 3`, the trace `retrieveC2`
finds one new fact in round 1 and none in round 2, so exactly two rounds
run. -/
theorem early_stop_on_no_new_facts_witness :
    (1 : Nat) ≤ 1 ∧
    (Orchestrator.process_query_loop retrieveC2 3).iteration_metadata[1]?
      = Option.some iterMetaW ∧
    iterMetaW.new_facts_found = 0 ∧
    (Orchestrator.iterations_performed retrieveC2 3 = 2 ∧ iterMetaW.iteration = 2) :=
  ⟨by decide, rfl, rfl,
   early_stop_on_no_new_facts retrieveC2 3 1 iterMetaW (by decide) rfl rfl⟩

/-- A valuable item is a dict satisfying one of the value conditions of
`_is_valuable_fact`. -/
theorem valuable_shape (item : PyVal)
    (h : Orchestrator.is_valuable_fact item = true) :
    ∃ kvs, item = PyVal.dict kvs ∧
      (hasKey kvs "sku" = true ∨ hasKey kvs "name" = true ∨
       (hasKey kvs "source" = true ∧ hasKey kvs "target" = true) ∨
       ∃ f ∈ Orchestrator.valuable_fields,
         strContains (strLower (pyStr item)) f = true) := by
  cases item with
  | dict kvs =>
    refine ⟨kvs, rfl, ?_⟩
    by_cases h1 : (hasKey kvs "sku" || hasKey kvs "name") = true
    · rcases (show hasKey kvs "sku" = true ∨ hasKey kvs "name" = true by
        simpa using h1) with h2 | h2
      · exact Or.inl h2
      · exact Or.inr (Or.inl h2)
    · by_cases h2 : (hasKey kvs "source" && hasKey kvs "target") = true
      · exact Or.inr (Or.inr (Or.inl (by simpa using h2)))
      · simp only [Orchestrator.is_valuable_fact, h1, h2, if_false, Bool.false_eq_true,
          if_neg] at h
        exact Or.inr (Or.inr (Or.inr (List.any_eq_true.mp h)))
  | str s => simp [Orchestrator.is_valuable_fact] at h
  | int n => simp [Orchestrator.is_valuable_fact] at h
  | float q => simp [Orchestrator.is_valuable_fact] at h
  | bool b => simp [Orchestrator.is_valuable_fact] at h
  | none => simp [Orchestrator.is_valuable_fact] at h
  | list xs => simp [Orchestrator.is_valuable_fact] at h

/-- Everything kept by `_filter_valuable_data` is valuable. -/
theorem mem_filter_valuable (data : List PyVal) (seen : List String) (item : PyVal)
    (h : item ∈ Orchestrator.filter_valuable_data data seen) :
    Orchestrator.is_valuable_fact item = true := by
  have hm := List.mem_filter.mp h
  have hm2 := hm.2
  simp only [Bool.and_eq_true] at hm2
  exact hm2.2

/-- Every item inside any context entry produced by one round is
valuable. -/
theorem accumulate_mem (iterIdx : Nat) :
    ∀ (rs : List Orchestrator.RetrievalResult) (seen : List String)
      (entry : Orchestrator.CtxEntry),
      entry ∈ (Orchestrator.accumulate_results iterIdx rs seen).1 →
      ∀ item ∈ entry.data, Orchestrator.is_valuable_fact item = true := by
  intro rs
  induction rs with
  | nil =>
    intro seen entry he
    simp [Orchestrator.accumulate_results] at he
  | cons r rest ih =>
    intro seen entry he
    simp only [Orchestrator.accumulate_results] at he
    split at he
    · exact ih seen entry he
    · rcases List.mem_cons.mp he with h | h
      · intro item hitem
        rw [h] at hitem
        exact mem_filter_valuable r.data seen item hitem
      · exact ih _ entry h

/-- One round appends exactly the new context to the accumulated
context. -/
theorem round_step_ctx_decomp (ro : Orchestrator.RoundOutput) (idx : Nat)
    (st : Orchestrator.LoopState) :
    (Orchestrator.round_step ro idx st).1.accumulated_context
      = st.accumulated_context ++
        (Orchestrator.accumulate_results idx ro.results st.all_retrieved_facts).1 := rfl

/-- The loop preserves the invariant that every accumulated item is
valuable. -/
theorem run_loop_ctx_valuable (retrieve : Nat → Orchestrator.RoundOutput) :
    ∀ (rem idx : Nat) (st : Orchestrator.LoopState),
      (∀ entry ∈ st.accumulated_context, ∀ item ∈ entry.data,
        Orchestrator.is_valuable_fact item = true) →
      ∀ entry ∈ (Orchestrator.run_loop retrieve rem idx st).accumulated_context,
        ∀ item ∈ entry.data, Orchestrator.is_valuable_fact item = true := by
  intro rem
  induction rem with
  | zero =>
    intro idx st hinv entry he
    simp only [Orchestrator.run_loop] at he
    exact hinv entry he
  | succ n ih =>
    intro idx st hinv entry he
    have hinv2 : ∀ entry ∈ (Orchestrator.round_step (retrieve idx) idx
        st).1.accumulated_context, ∀ item ∈ entry.data,
        Orchestrator.is_valuable_fact item = true := by
      intro e2 he2
      rw [round_step_ctx_decomp] at he2
      rcases List.mem_append.mp he2 with h | h
      · exact hinv e2 h
      · exact accumulate_mem idx (retrieve idx).results st.all_retrieved_facts e2 h
    simp only [Orchestrator.run_loop] at he
    by_cases hc : (Orchestrator.round_step (retrieve idx) idx st).2 = 0 ∧ 0 < idx
    · rw [if_pos hc] at he
      exact hinv2 entry he
    · rw [if_neg hc] at he
      exact ih (idx + 1) _ hinv2 entry he

/-- C10: every item that ever enters the accumulated context of a session
is a dict that carries a `sku` or `name` key, or both `source` and
`target` keys, or whose lower-cased string form contains one of the
substrings `description`, `type`, `capacity`, `compatibility`, `license`.
Contrapositively, an item failing all of these conditions — in
particular any non-dict — is never appended, even when its fact signature
has never been seen in the session. -/
theorem accumulated_items_satisfy_value_filter
    (retrieve : Nat → Orchestrator.RoundOutput) (max_iterations : Nat)
    (entry : Orchestrator.CtxEntry) (item : PyVal)
    (hentry : entry ∈ (Orchestrator.process_query_loop retrieve
      max_iterations).accumulated_context)
    (hitem : item ∈ entry.data) :
    ∃ kvs, item = PyVal.dict kvs ∧
      (hasKey kvs "sku" = true ∨ hasKey kvs "name" = true ∨
       (hasKey kvs "source" = true ∧ hasKey kvs "target" = true) ∨
       ∃ f ∈ Orchestrator.valuable_fields,
         strContains (strLower (pyStr item)) f = true) := by
  refine valuable_shape item ?_
  refine run_loop_ctx_valuable retrieve max_iterations 0 ⟨[], [], []⟩ ?_ entry hentry
    item hitem
  intro e2 he2
  simp at he2

/-- Witness for C10: the single entry accumulated from `retrieveC1` and
its item. -/
theorem accumulated_items_satisfy_value_filter_witness :
    entryW ∈ (Orchestrator.process_query_loop retrieveC1 1).accumulated_context ∧
    itemC1 ∈ entryW.data ∧
    (∃ kvs, itemC1 = PyVal.dict kvs ∧
      (hasKey kvs "sku" = true ∨ hasKey kvs "name" = true ∨
       (hasKey kvs "source" = true ∧ hasKey kvs "target" = true) ∨
       ∃ f ∈ Orchestrator.valuable_fields,
         strContains (strLower (pyStr itemC1)) f = true)) :=
  ⟨List.mem_singleton.mpr rfl, List.mem_singleton.mpr rfl,
   accumulated_items_satisfy_value_filter retrieveC1 1 entryW itemC1
     (List.mem_singleton.mpr rfl) (List.mem_singleton.mpr rfl)⟩

/-- C5 counterexample: with a graph oracle whose triplet requests raise a
connectivity error (everything else healthy) and a linker output holding
one linkable device, the whole round aborts with the exception — the
failure inside the triplet-retrieval strategy is not caught within that
strategy, contradicting the claim. -/
theorem triplet_failure_aborts_round :
    GraphRetriever.retrieve_all failTripletOracle kgOutputC5
      = .error PyErr.connectivity := rfl

/-- Bind respects pointwise-equal continuations in `Except`. -/
theorem except_bind_congr {ε α β : Type} (x : Except ε α) (f g : α → Except ε β)
    (h : ∀ a, f a = g a) : x >>= f = x >>= g := by
  cases x <;> simp [Bind.bind, Except.bind, h]

/-- The stubbed oracle shares the session opener with the original. -/
theorem stubbed_openSession (o : GraphRetriever.GraphOracle) :
    (cypherPathStubbed o).openSession = o.openSession := rfl

/-- The stubbed path runner returns no rows. -/
theorem stubbed_runPath (o : GraphRetriever.GraphOracle) (q : String) :
    (cypherPathStubbed o).runPath q = .ok [] := rfl

/-- The stubbed query runner returns no rows. -/
theorem stubbed_runCypher (o : GraphRetriever.GraphOracle) (q : String) (p : PyVal) :
    (cypherPathStubbed o).runCypher q p = .ok [] := rfl

/-- The stubbed oracle shares the triplet runner with the original. -/
theorem stubbed_runTriplet (o : GraphRetriever.GraphOracle) (q : String) (i : PyVal) :
    (cypherPathStubbed o).runTriplet q i = o.runTriplet q i := rfl

/-- Linking one entity does not consult the path or query runners. -/
theorem link_one_stubbed (o : GraphRetriever.GraphOracle) (e : PyDict) :
    GraphRetriever.link_one (cypherPathStubbed o) e = GraphRetriever.link_one o e := rfl

/-- Linking a list of entities does not consult the path or query
runners. -/
theorem link_entities_list_stubbed (o : GraphRetriever.GraphOracle) :
    ∀ l, GraphRetriever.link_entities_list (cypherPathStubbed o) l
      = GraphRetriever.link_entities_list o l := by
  intro l
  induction l with
  | nil => rfl
  | cons e es ih =>
    simp only [GraphRetriever.link_entities_list, link_one_stubbed]
    refine except_bind_congr _ _ _ ?_
    intro r
    rw [ih]

/-- Entity linking does not consult the path or query runners. -/
theorem link_entities_stubbed (o : GraphRetriever.GraphOracle)
    (ents : KGLinker.EntityExtraction) :
    GraphRetriever.link_entities (cypherPathStubbed o) ents
      = GraphRetriever.link_entities o ents := by
  simp only [GraphRetriever.link_entities, stubbed_openSession]
  exact except_bind_congr _ _ _ (fun _ => link_entities_list_stubbed o _)

/-- With an always-failing path runner every traversal is skipped. -/
theorem retrieve_paths_go_fail (o : GraphRetriever.GraphOracle) (e2 : PyErr)
    (hp : ∀ q, o.runPath q = .error e2) :
    ∀ paths, GraphRetriever.retrieve_paths_go o paths = [] := by
  intro paths
  induction paths with
  | nil => rfl
  | cons p ps ih =>
    by_cases hlen : p.length < 2
    · simp [GraphRetriever.retrieve_paths_go, hlen, ih]
    · simp [GraphRetriever.retrieve_paths_go, hlen, ih, hp]

/-- With the stubbed (empty-result) path runner every traversal returns
nothing. -/
theorem retrieve_paths_go_stubbed (o : GraphRetriever.GraphOracle) :
    ∀ paths, GraphRetriever.retrieve_paths_go (cypherPathStubbed o) paths = [] := by
  intro paths
  induction paths with
  | nil => rfl
  | cons p ps ih =>
    by_cases hlen : p.length < 2
    · simp [GraphRetriever.retrieve_paths_go, hlen, ih]
    · simp [GraphRetriever.retrieve_paths_go, hlen, ih, stubbed_runPath,
        GraphRetriever.path_rows_to_results]

/-- Path retrieval under a failing path runner equals path retrieval
under the stubbed runner. -/
theorem retrieve_paths_stubbed (o : GraphRetriever.GraphOracle) (e2 : PyErr)
    (hp : ∀ q, o.runPath q = .error e2) (paths : List (List String))
    (linked : List GraphRetriever.LinkedEntity) :
    GraphRetriever.retrieve_paths (cypherPathStubbed o) paths linked
      = GraphRetriever.retrieve_paths o paths linked := by
  simp only [GraphRetriever.retrieve_paths, stubbed_openSession]
  refine except_bind_congr _ _ _ ?_
  intro u
  rw [retrieve_paths_go_stubbed, retrieve_paths_go_fail o e2 hp]

/-- A query executed against an always-failing query runner yields no
rows. -/
theorem execute_cypher_fst_fail (o : GraphRetriever.GraphOracle) (e1 : PyErr)
    (hc : ∀ q p, o.runCypher q p = .error e1) (s : String) (p : PyVal) :
    (GraphRetriever.execute_cypher o s p).1 = [] := by
  unfold GraphRetriever.execute_cypher
  by_cases hf : GraphRetriever.forbidden_keywords.any
      (fun kw => strContains (strUpper s) kw) = true
  · rw [if_pos hf]
  · rw [if_neg hf]
    cases ho : o.openSession with
    | error e => simp
    | ok u => simp [hc]

/-- A query executed against the stubbed query runner yields no rows. -/
theorem execute_cypher_fst_stubbed (o : GraphRetriever.GraphOracle) (s : String)
    (p : PyVal) :
    (GraphRetriever.execute_cypher (cypherPathStubbed o) s p).1 = [] := by
  simp only [GraphRetriever.execute_cypher, stubbed_openSession, stubbed_runCypher]
  by_cases hf : GraphRetriever.forbidden_keywords.any
      (fun kw => strContains (strUpper s) kw) = true
  · rw [if_pos hf]
  · rw [if_neg hf]
    cases ho : o.openSession with
    | error e => simp
    | ok u => simp

/-- Declarative query execution under a failing query runner equals the
stubbed execution. -/
theorem execute_cypher_queries_stubbed (o : GraphRetriever.GraphOracle) (e1 : PyErr)
    (hc : ∀ q p, o.runCypher q p = .error e1) :
    ∀ qds, GraphRetriever.execute_cypher_queries (cypherPathStubbed o) qds
      = GraphRetriever.execute_cypher_queries o qds := by
  intro qds
  induction qds with
  | nil => rfl
  | cons qd rest ih =>
    simp only [GraphRetriever.execute_cypher_queries]
    by_cases hk : hasKey qd "cypher" = true
    · rw [if_pos hk, if_pos hk]
      cases hv : pyGetD qd "cypher" .none <;>
        simp [execute_cypher_fst_stubbed, execute_cypher_fst_fail o e1 hc, ih]
    · rw [if_neg hk, if_neg hk]
      exact ih

/-- Triplet retrieval does not consult the path or query runners. -/
theorem retrieve_triplets_go_stubbed (o : GraphRetriever.GraphOracle) :
    ∀ l, GraphRetriever.retrieve_triplets_go (cypherPathStubbed o) l
      = GraphRetriever.retrieve_triplets_go o l := by
  intro l
  induction l with
  | nil => rfl
  | cons e es ih =>
    simp only [GraphRetriever.retrieve_triplets_go, stubbed_runTriplet]
    split
    · exact ih
    · refine except_bind_congr _ _ _ ?_
      intro rows
      rw [ih]

/-- Triplet retrieval under the stubbed oracle equals the original. -/
theorem retrieve_triplets_stubbed (o : GraphRetriever.GraphOracle)
    (linked : List GraphRetriever.LinkedEntity) :
    GraphRetriever.retrieve_triplets (cypherPathStubbed o) linked
      = GraphRetriever.retrieve_triplets o linked := by
  simp only [GraphRetriever.retrieve_triplets, stubbed_openSession]
  exact except_bind_congr _ _ _ (fun _ => retrieve_triplets_go_stubbed o _)

/-- The path step under a failing path runner equals the stubbed step. -/
theorem path_step_stubbed (o : GraphRetriever.GraphOracle)
    (kg : GraphRetriever.KGOutput) (e2 : PyErr)
    (hp : ∀ q, o.runPath q = .error e2) (linked : List GraphRetriever.LinkedEntity) :
    GraphRetriever.path_step (cypherPathStubbed o) kg linked
      = GraphRetriever.path_step o kg linked := by
  simp only [GraphRetriever.path_step]
  rw [retrieve_paths_stubbed o e2 hp]

/-- The query step under a failing query runner equals the stubbed step. -/
theorem cypher_step_stubbed (o : GraphRetriever.GraphOracle)
    (kg : GraphRetriever.KGOutput) (e1 : PyErr)
    (hc : ∀ q p, o.runCypher q p = .error e1) :
    GraphRetriever.cypher_step (cypherPathStubbed o) kg
      = GraphRetriever.cypher_step o kg := by
  simp only [GraphRetriever.cypher_step]
  rw [execute_cypher_queries_stubbed o e1 hc]

/-- The triplet step ignores the path and query runners. -/
theorem triplet_step_stubbed (o : GraphRetriever.GraphOracle)
    (linked : List GraphRetriever.LinkedEntity) :
    GraphRetriever.triplet_step (cypherPathStubbed o) linked
      = GraphRetriever.triplet_step o linked := by
  simp only [GraphRetriever.triplet_step]
  rw [retrieve_triplets_stubbed]

/-- C5 amended: a connectivity failure confined to the declarative-query
runner or the path runner is caught inside those strategies — a whole
round behaves exactly as if those runners had returned no rows: the
failing strategies contribute no evidence, the other strategies still
execute, and the round does not abort.  (By `triplet_failure_aborts_round`
the same is not true of entity linking or triplet retrieval, whose
failures propagate and abort the round.) -/
theorem cypher_path_failures_confined (o : GraphRetriever.GraphOracle)
    (kg : GraphRetriever.KGOutput) (e1 e2 : PyErr)
    (hc : ∀ q p, o.runCypher q p = .error e1)
    (hp : ∀ q, o.runPath q = .error e2) :
    GraphRetriever.retrieve_all o kg
      = GraphRetriever.retrieve_all (cypherPathStubbed o) kg ∧
    (∀ s p, (GraphRetriever.execute_cypher o s p).1 = []) ∧
    (∀ paths, GraphRetriever.retrieve_paths_go o paths = []) := by
  refine ⟨?_, fun s p => execute_cypher_fst_fail o e1 hc s p,
    fun paths => retrieve_paths_go_fail o e2 hp paths⟩
  simp only [GraphRetriever.retrieve_all]
  rw [link_entities_stubbed]
  refine (except_bind_congr _ _ _ ?_).symm
  intro linked
  rw [path_step_stubbed o kg e2 hp]
  refine except_bind_congr _ _ _ ?_
  intro r2
  rw [cypher_step_stubbed o kg e1 hc]
  refine except_bind_congr _ _ _ ?_
  intro r3
  rw [triplet_step_stubbed]

/-- Witness for C5 amended at the concrete failing oracle. -/
theorem cypher_path_failures_confined_witness :
    (∀ q p, failCypherPathOracle.runCypher q p = .error PyErr.connectivity) ∧
    (∀ q, failCypherPathOracle.runPath q = .error PyErr.connectivity) ∧
    GraphRetriever.retrieve_all failCypherPathOracle kgOutputC5
      = GraphRetriever.retrieve_all (cypherPathStubbed failCypherPathOracle) kgOutputC5 :=
  ⟨fun _ _ => rfl, fun _ => rfl,
   (cypher_path_failures_confined failCypherPathOracle kgOutputC5
     PyErr.connectivity PyErr.connectivity (fun _ _ => rfl) (fun _ => rfl)).1⟩
